import Mathlib

/-!
# Verification of the `Consistency` analysis engine (`src/consistency.js`)

This file is a shallow embedding, in Lean 4, of the rule-based consistency
analysis engine: the single-page analyzer `analyzePage`, the cross-page
comparator `compareSnapshots`, and every detector they invoke.  JavaScript
arrays become `List`, objects become structures, absent optional fields become
`Option` (or the empty string, matching JS falsiness for string fields),
JS `Set`/`Map` (which iterate in insertion order) become insertion-ordered
lists built with `setAdd` / `mapSet` / `mapPush`, and JS numbers that the
engine only ever uses as integers become `Nat` (or `Int` where the source can
observe negative values, e.g. bounding-box coordinates).  Each definition is
translated line by line from the source; comments cite the source function.

The WHATWG `URL` / `URLSearchParams` platform API used by
`_crossPageUrlParamDuplication` is modelled for hierarchical
`scheme://host/path?query` URLs over percent-encoding-free input: parsing
fails (as the JS constructor throws) when the string has no `scheme://host`
prefix; `searchParams.delete` removes every pair with the given name;
`searchParams.sort` is a stable sort by parameter name in code-unit order.
-/

/-! ## List utilities modelling JS runtime collections -/

/-- One `Set.add`: append the element unless it is already present.
JS `Set` iterates in insertion order, which this preserves. -/
def setAdd (l : List String) (x : String) : List String :=
  if x ∈ l then l else l ++ [x]

/-- `new Set(xs)` / repeatedly `add`ing every element of `xs`:
the deduplicated list in first-occurrence order.  `[...set]` is this list
and `set.size` is its length. -/
def setList (xs : List String) : List String :=
  xs.foldl setAdd []

/-- `map.set k v` on a JS `Map` modelled as an insertion-ordered
association list: overwrite the value in place if the key exists,
otherwise append a new entry. -/
def mapSet {α : Type} (m : List (String × α)) (k : String) (v : α) :
    List (String × α) :=
  if m.any (fun p => p.1 = k) then
    m.map (fun p => if p.1 = k then (p.1, v) else p)
  else m ++ [(k, v)]

/-- The `if (!m.has(k)) m.set(k, []); m.get(k).push(v)` idiom:
append `v` to the group of key `k`, creating the group if needed. -/
def mapPush {α : Type} (m : List (String × List α)) (k : String) (v : α) :
    List (String × List α) :=
  if m.any (fun p => p.1 = k) then
    m.map (fun p => if p.1 = k then (p.1, p.2 ++ [v]) else p)
  else m ++ [(k, [v])]

/-- Group a list by a string key, preserving first-occurrence key order and
element order inside each group (the JS grouping idiom built on `Map`). -/
def groupByKey {α : Type} (key : α → String) (l : List α) :
    List (String × List α) :=
  l.foldl (fun m x => mapPush m (key x) x) []

/-- `Array.prototype.join(sep)` (on lists of strings, all defined). -/
def joinSep (sep : String) : List String → String
  | [] => ""
  | x :: xs => xs.foldl (fun acc y => acc ++ sep ++ y) x

/-- `String.prototype.substring(0, n)`: the first `n` code units.
(All truncated strings in this development are ASCII, where code units,
code points and `Char`s coincide.) -/
def strTake (s : String) (n : Nat) : String :=
  String.mk (s.data.take n)

/-- `Math.min` over a nonempty integer list (0 on the empty list, which the
source never reaches: every use is guarded by a length check). -/
def natMinList : List Nat → Nat
  | [] => 0
  | x :: xs => xs.foldl min x

/-- `Math.max` over a nonempty integer list (0 on the empty list). -/
def natMaxList : List Nat → Nat
  | [] => 0
  | x :: xs => xs.foldl max x

/-! ## The URL platform model -/

/-- Code-unit (= code-point, for our ASCII inputs) comparison on char lists,
as JS string comparison orders parameter names in `searchParams.sort()`. -/
def charListLe : List Char → List Char → Bool
  | [], _ => true
  | _ :: _, [] => false
  | a :: as, b :: bs =>
    if a < b then true
    else if b < a then false
    else charListLe as bs

/-- `a ≤ b` in code-unit order. -/
def strLe (a b : String) : Bool :=
  charListLe a.data b.data

/-- Stable insertion of a (name, value) pair after all pairs whose name
compares `≤` its name. -/
def insPair (x : String × String) : List (String × String) →
    List (String × String)
  | [] => [x]
  | y :: ys => if strLe y.1 x.1 then y :: insPair x ys else x :: y :: ys

/-- `URLSearchParams.sort()`: stable sort of the pairs by name. -/
def sortParams (l : List (String × String)) : List (String × String) :=
  l.foldl (fun acc x => insPair x acc) []

/-- Split a char list at the first occurrence of a separator satisfying `p`:
returns the part before and, when a separator was found, the separator
together with the part after it. -/
def splitAtFirst (p : Char → Bool) : List Char →
    List Char × Option (Char × List Char)
  | [] => ([], none)
  | c :: cs =>
    if p c then ([], some (c, cs))
    else
      let r := splitAtFirst p cs
      (c :: r.1, r.2)

/-- Split a char list on every occurrence of a separator character
(the `application/x-www-form-urlencoded` tokenizer step). -/
def splitOnChar (sep : Char) : List Char → List (List Char)
  | [] => [[]]
  | c :: cs =>
    let r := splitOnChar sep cs
    if c = sep then [] :: r
    else
      match r with
      | [] => [[c]]
      | h :: t => (c :: h) :: t

/-- Parse one `name=value` piece of a query string (no `=`: empty value). -/
def parseParam (piece : List Char) : String × String :=
  let r := splitAtFirst (fun c => c = '=') piece
  match r.2 with
  | none => (String.mk r.1, "")
  | some v => (String.mk r.1, String.mk v.2)

/-- Parse a query string into its (name, value) pairs, skipping empty
pieces as `URLSearchParams` does. -/
def parseQuery (q : List Char) : List (String × String) :=
  ((splitOnChar '&' q).filter (fun piece => piece ≠ [])).map parseParam

/-- A parsed hierarchical URL: the components the engine reads back
(`origin` = scheme ++ "://" ++ host, `pathname`, and the query pairs that
`searchParams` exposes).  Fragments are dropped during parsing. -/
structure UrlParsed where
  scheme : String
  host : String
  pathname : String
  params : List (String × String)
deriving DecidableEq, Repr

/-- Is `c` legal in a URL scheme (after the leading letter)? -/
def schemeChar (c : Char) : Bool :=
  c.isAlpha || c.isDigit || c = '+' || c = '-' || c = '.'

/-- The `new URL(s)` constructor, for hierarchical `scheme://host...` URLs:
`none` models the constructor throwing.  Parsing requires a nonempty
letter-led scheme, the literal `"://"`, and a nonempty host; the path,
query and fragment are then cut at the first `/`, `?` and `#`. -/
def parseUrl (s : String) : Option UrlParsed :=
  let r := splitAtFirst (fun c => c = ':') s.data
  match r.2 with
  | none => none
  | some rest =>
    let scheme := r.1
    if scheme = [] then none
    else if ¬ (scheme.headD 'a').isAlpha then none
    else if ¬ (scheme.all schemeChar) then none
    else
      match rest.2 with
      | '/' :: '/' :: rest2 =>
        let hostSplit :=
          splitAtFirst (fun c => c = '/' || c = '?' || c = '#') rest2
        let host := hostSplit.1
        if host = [] then none
        else
          let lower := fun (l : List Char) => l.map Char.toLower
          let mkUrl := fun (path : List Char) (q : List (String × String)) =>
            some (⟨String.mk (lower scheme), String.mk (lower host),
                   String.mk path, q⟩ : UrlParsed)
          match hostSplit.2 with
          | none => mkUrl ['/'] []
          | some ('#', _) => mkUrl ['/'] []
          | some ('?', tail) =>
            mkUrl ['/'] (parseQuery (splitAtFirst (fun c => c = '#') tail).1)
          | some (_, tail) =>
            let pathSplit := splitAtFirst (fun c => c = '?' || c = '#') tail
            match pathSplit.2 with
            | none => mkUrl ('/' :: pathSplit.1) []
            | some ('?', qtail) =>
              mkUrl ('/' :: pathSplit.1)
                (parseQuery (splitAtFirst (fun c => c = '#') qtail).1)
            | some (_, _) => mkUrl ('/' :: pathSplit.1) []
      | _ => none

/-- Re-serialize the query pairs: `u.search` is empty when there are no
parameters and `?name=value&...` otherwise. -/
def serializeQuery (ps : List (String × String)) : String :=
  match ps with
  | [] => ""
  | _ => "?" ++ joinSep "&" (ps.map (fun p => p.1 ++ "=" ++ p.2))

/-! ## Data model (`Snapshot` / `Element` / `Issue`, §3 of the spec,
shapes produced by `content_script.js`) -/

/-- Computed styles the engine reads.  Absent styles are the empty string
(JS `undefined` both fails truthiness tests and serializes to the empty
string inside `Array.prototype.join`). -/
structure Styles where
  fontFamily : String := ""
  fontSize : String := ""
  fontWeight : String := ""
  color : String := ""
  backgroundColor : String := ""
  borderRadius : String := ""
  border : String := ""
  padding : String := ""
  margin : String := ""
deriving DecidableEq, Repr

/-- Rounded bounding-box size in device pixels (`Math.round(rect.width)`,
`Math.round(rect.height)`; the engine only compares and prints them). -/
structure Dim where
  width : Nat := 0
  height : Nat := 0
deriving DecidableEq, Repr

/-- A buttons-category element (`tag`, `text`, `id`, `classes`, styles,
dimensions, plus `role`/`ariaLabel`/`tabIndex`/`title`).  `tabIndex` is
`none` when the JS property is `undefined`. -/
structure ButtonEl where
  tag : String := ""
  text : String := ""
  id : String := ""
  classes : String := ""
  styles : Styles := {}
  dimensions : Dim := {}
  role : String := ""
  ariaLabel : String := ""
  title : String := ""
  tabIndex : Option Int := none
deriving DecidableEq, Repr

/-- An inputs-category element. -/
structure InputEl where
  tag : String := ""
  text : String := ""
  id : String := ""
  classes : String := ""
  styles : Styles := {}
  dimensions : Dim := {}
  type : String := ""
  placeholder : String := ""
deriving DecidableEq, Repr

/-- A headings-category element. -/
structure HeadingEl where
  tag : String := ""
  text : String := ""
  id : String := ""
  classes : String := ""
  styles : Styles := {}
  dimensions : Dim := {}
deriving DecidableEq, Repr

/-- A links-category element. -/
structure LinkEl where
  tag : String := ""
  text : String := ""
  id : String := ""
  classes : String := ""
  styles : Styles := {}
  dimensions : Dim := {}
  href : String := ""
deriving DecidableEq, Repr

/-- An images-category element.  `rectTop`/`rectBottom` are viewport
coordinates and may be negative. -/
structure ImageEl where
  tag : String := ""
  text : String := ""
  id : String := ""
  classes : String := ""
  styles : Styles := {}
  dimensions : Dim := {}
  src : String := ""
  alt : String := ""
  loading : String := ""
  fetchPriority : String := ""
  decoding : String := ""
  rectTop : Int := 0
  rectBottom : Int := 0
deriving DecidableEq, Repr

/-- The per-category element collections, in the insertion order of the
extraction script's `selectors` object (`Object.values` order). -/
structure Elements where
  buttons : List ButtonEl := []
  inputs : List InputEl := []
  headings : List HeadingEl := []
  links : List LinkEl := []
  images : List ImageEl := []
deriving DecidableEq, Repr

/-- A `heroCandidates` entry. -/
structure HeroCandidate where
  tag : String := ""
  classes : String := ""
  id : String := ""
  dimensions : Dim := {}
deriving DecidableEq, Repr

/-- An `overlays` entry. -/
structure Overlay where
  tag : String := ""
  classes : String := ""
  id : String := ""
  zIndex : String := ""
  opacity : String := ""
  pointerEvents : String := ""
  position : String := ""
  dimensions : Dim := {}
deriving DecidableEq, Repr

/-- A `skeletons` entry (its `styles` sub-object). -/
structure Skeleton where
  tag : String := ""
  classes : String := ""
  id : String := ""
  styles : Styles := {}
  dimensions : Dim := {}
deriving DecidableEq, Repr

/-- A `thirdPartyResources` entry. -/
structure ThirdParty where
  host : String := ""
  count : Nat := 0
deriving DecidableEq, Repr

/-- `domStats`. -/
structure DomStats where
  totalElementCount : Nat := 0
  hiddenElementCount : Nat := 0
deriving DecidableEq, Repr

/-- `bodyVisibility`. -/
structure BodyVisibility where
  bodyOpacity : String := ""
  bodyVisibility : String := ""
  htmlOpacity : String := ""
  htmlVisibility : String := ""
deriving DecidableEq, Repr

/-- One page observation.  Optional enrichment fields are `Option`;
string-valued page fields use the empty string for the JS falsy cases
(`fullUrl`, `primaryH1Text`, `contentSignature`), `viewportHeight = 0`
models both `0` and an absent value (the source only tests falsiness). -/
structure Snapshot where
  url : String := ""
  fullUrl : String := ""
  title : String := ""
  isSPA : Bool := false
  viewportHeight : Nat := 0
  elements : Elements := {}
  primaryH1Text : String := ""
  contentSignature : String := ""
  heroCandidates : Option (List HeroCandidate) := none
  overlays : Option (List Overlay) := none
  skeletons : Option (List Skeleton) := none
  thirdPartyResources : Option (List ThirdParty) := none
  domStats : Option DomStats := none
  bodyVisibility : Option BodyVisibility := none
deriving DecidableEq, Repr

/-- An output finding.  `severity` is carried as the raw string each
detector writes; `url` is `some` exactly when the detector attached one. -/
structure Issue where
  severity : String
  category : String
  message : String
  detail : String
  url : Option String := none
deriving DecidableEq, Repr

/-! ## Shared utility (`_groupByStyles`) -/

/-- `_groupByStyles(elements, styleKeys)`: partition by the pipe-joined
tuple of style values, in first-occurrence key order.  Style lookup is
passed as getter functions (the JS version indexes `el.styles[k]` by key
string; each call site fixes the key list). -/
def groupByStyles {α : Type} (elements : List α) (styleKeys : List (α → String)) :
    List (List α) :=
  (groupByKey (fun el => joinSep "|" (styleKeys.map (fun k => k el))) elements).map
    (fun p => p.2)

/-- First whitespace-separated class token: `String(classes).split(" ")[0]`
(only evaluated under a `classes` truthiness guard). -/
def firstClass (classes : String) : String :=
  String.mk (splitAtFirst (fun c => c = ' ') classes.data).1

/-! ## Single-page detectors -/

/-- `_checkButtonConsistency`. -/
def checkButtonConsistency (buttons : List ButtonEl) (url : String) :
    List Issue :=
  if buttons.length < 2 then [] else
  let styleGroups := groupByStyles buttons
    [fun b => b.styles.fontSize, fun b => b.styles.fontFamily,
     fun b => b.styles.borderRadius, fun b => b.styles.padding]
  (if styleGroups.length > 2 then
    [{ severity := "warning", category := "Buttons",
       message := toString styleGroups.length ++
         " different button styles found on this page",
       detail := "Buttons use " ++ toString styleGroups.length ++
         " distinct style combinations for font-size, font-family, border-radius, and padding. Consider unifying them.",
       url := some url }] else []) ++
  (let fontSizes := setList (buttons.map (fun b => b.styles.fontSize))
   if fontSizes.length > 2 then
    [{ severity := "warning", category := "Buttons",
       message := "Buttons use " ++ toString fontSizes.length ++
         " different font sizes: " ++ joinSep ", " fontSizes,
       detail := "Consistent button font sizing improves visual hierarchy.",
       url := some url }] else []) ++
  (let borderRadii := setList (buttons.map (fun b => b.styles.borderRadius))
   if borderRadii.length > 2 then
    [{ severity := "info", category := "Buttons",
       message := "Buttons use " ++ toString borderRadii.length ++
         " different border-radius values: " ++ joinSep ", " borderRadii,
       detail := "Mixing rounded and sharp buttons can look inconsistent.",
       url := some url }] else []) ++
  buttons.flatMap (fun btn =>
    if btn.text = "" ∧ btn.tag = "button" then
      [{ severity := "error", category := "Buttons",
         message := "Button has no text content",
         detail := "A <" ++ btn.tag ++
           "> element has no visible text, which hurts accessibility.",
         url := some url }] else [])

/-- `_checkInputConsistency`. -/
def checkInputConsistency (inputs : List InputEl) (url : String) :
    List Issue :=
  if inputs.length < 2 then [] else
  let styleGroups := groupByStyles inputs
    [fun i => i.styles.fontSize, fun i => i.styles.border,
     fun i => i.styles.borderRadius, fun i => i.styles.padding]
  (if styleGroups.length > 2 then
    [{ severity := "warning", category := "Inputs",
       message := toString styleGroups.length ++
         " different input styles found on this page",
       detail := "Inputs with inconsistent styling can confuse users about which fields are related.",
       url := some url }] else []) ++
  inputs.flatMap (fun input =>
    if input.type = "text" ∧ input.placeholder = "" then
      [{ severity := "info", category := "Inputs",
         message := "Text input without placeholder" ++
           (if input.id ≠ "" then " (#" ++ input.id ++ ")" else ""),
         detail := "Placeholder text helps users understand what to enter.",
         url := some url }] else [])

/-- `parseInt(h.tag.charAt(1))`: the heading level digit, `none` for the
JS `NaN` (which fails every comparison the source performs on it). -/
def headingLevel (tag : String) : Option Nat :=
  match tag.data.drop 1 with
  | c :: _ => if c.isDigit then some (c.toNat - '0'.toNat) else none
  | [] => none

/-- The hierarchy-skip issue for one adjacent heading pair
(`levels[i] > levels[i - 1] + 1`; `NaN` on either side never fires). -/
def headingSkipIssue (url : String) (prev cur : HeadingEl) : List Issue :=
  match headingLevel prev.tag, headingLevel cur.tag with
  | some p, some c =>
    if c > p + 1 then
      [{ severity := "warning", category := "Headings",
         message := "Heading hierarchy skips from h" ++ toString p ++
           " to h" ++ toString c,
         detail := "\"" ++ prev.text ++ "\" (h" ++ toString p ++
           ") is followed by \"" ++ cur.text ++ "\" (h" ++ toString c ++
           "). Skipping heading levels hurts accessibility and SEO.",
         url := some url }] else []
  | _, _ => []

/-- `_checkHeadingHierarchy`. -/
def checkHeadingHierarchy (headings : List HeadingEl) (url : String) :
    List Issue :=
  if headings.length = 0 then [] else
  let levels := headings.map (fun h => headingLevel h.tag)
  ((headings.zip headings.tail).flatMap
    (fun pc => headingSkipIssue url pc.1 pc.2)) ++
  (if ¬ (some 1 ∈ levels) then
    [{ severity := "info", category := "Headings",
       message := "Page has no h1 heading",
       detail := "Every page should have exactly one h1 for accessibility and SEO.",
       url := some url }] else []) ++
  (let h1Count := levels.count (some 1)
   if h1Count > 1 then
    [{ severity := "warning", category := "Headings",
       message := "Page has " ++ toString h1Count ++ " h1 headings",
       detail := "Best practice is to have exactly one h1 per page.",
       url := some url }] else []) ++
  ([1, 2, 3, 4, 5, 6].flatMap (fun level =>
    let sameLevel := headings.filter (fun h => h.tag = "h" ++ toString level)
    if sameLevel.length > 1 then
      let fontSizes := setList (sameLevel.map (fun h => h.styles.fontSize))
      if fontSizes.length > 1 then
        [{ severity := "warning", category := "Headings",
           message := "h" ++ toString level ++
             " headings have inconsistent font sizes: " ++
             joinSep ", " fontSizes,
           detail := "Same-level headings should be visually consistent.",
           url := some url }] else []
    else []))

/-- `_checkLinkConsistency`. -/
def checkLinkConsistency (links : List LinkEl) (url : String) : List Issue :=
  if links.length < 2 then [] else
  let colors := setList (links.map (fun l => l.styles.color))
  if colors.length > 3 then
    [{ severity := "info", category := "Links",
       message := "Links use " ++ toString colors.length ++
         " different colors",
       detail := "Too many link colors can make it hard for users to identify clickable elements.",
       url := some url }] else []

/-- `_checkImageAccessibility`. -/
def checkImageAccessibility (images : List ImageEl) (url : String) :
    List Issue :=
  images.flatMap (fun img =>
    if img.alt = "" then
      [{ severity := "error", category := "Images",
         message := "Image missing alt text" ++
           (if img.src ≠ "" then ": " ++ strTake img.src 60 else ""),
         detail := "All images should have alt text for accessibility.",
         url := some url }] else [])

/-- `_checkAboveFoldLazyImages`. -/
def checkAboveFoldLazyImages (snap : Snapshot) : List Issue :=
  let vh := snap.viewportHeight
  if vh = 0 then [] else
  snap.elements.images.flatMap (fun img =>
    if img.loading = "lazy" ∧ img.rectTop < (vh : Int) ∧ img.rectBottom > 0 then
      if img.dimensions.width * img.dimensions.height > 120000 then
        [{ severity := "warning", category := "Images: Performance",
           message := "Above-the-fold image uses loading=\"lazy\"" ++
             (if img.src ≠ "" then ": " ++ strTake img.src 60 else ""),
           detail := "Lazy-loading above-the-fold images delays their render and hurts perceived performance. Remove loading=\"lazy\" for hero/banner images.",
           url := some snap.url }] else []
    else [])

/-- `aboveFold.reduce(...)` in `_checkHeroImageHints`: the first image of
maximal area (strict `>` keeps the earlier element on ties; the reduce seed
is the first element, which is then compared against itself). -/
def heroReduce (first : ImageEl) (rest : List ImageEl) : ImageEl :=
  (first :: rest).foldl
    (fun largest img =>
      if img.dimensions.width * img.dimensions.height >
          largest.dimensions.width * largest.dimensions.height
      then img else largest)
    first

/-- `_checkHeroImageHints`. -/
def checkHeroImageHints (snap : Snapshot) : List Issue :=
  let vh := snap.viewportHeight
  if vh = 0 then [] else
  let aboveFold := snap.elements.images.filter
    (fun img => img.rectTop < (vh : Int) ∧ img.rectBottom > 0)
  match aboveFold with
  | [] => []
  | first :: rest =>
    let hero := heroReduce first rest
    if hero.dimensions.width * hero.dimensions.height < 50000 then [] else
    (if hero.fetchPriority = "" ∨ hero.fetchPriority = "auto" then
      [{ severity := "info", category := "Images: Performance",
         message := "Largest above-fold image missing fetchpriority=\"high\"" ++
           (if hero.src ≠ "" then ": " ++ strTake hero.src 60 else ""),
         detail := "Adding fetchpriority=\"high\" to the hero image helps the browser prioritize its download, improving LCP.",
         url := some snap.url }] else []) ++
    (if hero.decoding = "sync" then
      [{ severity := "warning", category := "Images: Performance",
         message := "Hero image uses decoding=\"sync\"" ++
           (if hero.src ≠ "" then ": " ++ strTake hero.src 60 else ""),
         detail := "Synchronous decoding blocks the main thread. Use decoding=\"async\" or remove the attribute.",
         url := some snap.url }] else [])

/-- `_checkBackgroundImageHero` (the `length === 0` guard is subsumed by
iterating the empty list). -/
def checkBackgroundImageHero (snap : Snapshot) : List Issue :=
  match snap.heroCandidates with
  | none => []
  | some cands =>
    cands.map (fun candidate =>
      { severity := "warning", category := "Layout: Performance",
        message := "Large above-fold element uses CSS background-image instead of <img>",
        detail := "<" ++ candidate.tag ++ ">" ++
          (if candidate.id ≠ "" then " #" ++ candidate.id else "") ++
          (if candidate.classes ≠ "" then " ." ++ firstClass candidate.classes else "") ++
          " (" ++ toString candidate.dimensions.width ++ "×" ++
          toString candidate.dimensions.height ++
          "px) uses background-image. The browser discovers CSS background images later than <img> elements, delaying LCP.",
        url := some snap.url })

/-- `_checkOverlayBlocking`. -/
def checkOverlayBlocking (snap : Snapshot) : List Issue :=
  (match snap.bodyVisibility with
   | none => []
   | some bv =>
     (if bv.bodyOpacity = "0" ∨ bv.bodyVisibility = "hidden" then
       [{ severity := "error", category := "UX: Render Blocking",
          message := "Page body is hidden (opacity: 0 or visibility: hidden)",
          detail := "The page body is not visible. This may indicate a hydration gate, A/B test script, or anti-flicker snippet blocking content render.",
          url := some snap.url }] else []) ++
     (if bv.htmlOpacity = "0" ∨ bv.htmlVisibility = "hidden" then
       [{ severity := "error", category := "UX: Render Blocking",
          message := "HTML root element is hidden",
          detail := "The <html> element is not visible, blocking all content from rendering.",
          url := some snap.url }] else [])) ++
  (match snap.overlays with
   | none => []
   | some overlays =>
     overlays.flatMap (fun overlay =>
       if overlay.opacity ≠ "0" ∧ overlay.pointerEvents ≠ "none" then
         [{ severity := "warning", category := "UX: Render Blocking",
            message := "Full-viewport overlay detected (" ++ overlay.tag ++
              (if overlay.id ≠ "" then " #" ++ overlay.id else "") ++ ")",
            detail := "A " ++ overlay.position ++
              "-positioned element covers the viewport (" ++
              toString overlay.dimensions.width ++ "×" ++
              toString overlay.dimensions.height ++ "px, z-index: " ++
              overlay.zIndex ++
              "). This may block user interaction and delay perceived content visibility.",
            url := some snap.url }] else []))

/-- `_checkSkeletonConsistency`. -/
def checkSkeletonConsistency (snap : Snapshot) : List Issue :=
  match snap.skeletons with
  | none => []
  | some sks =>
    if sks.length < 2 then [] else
    let styleGroups := groupByStyles sks
      [fun s => s.styles.backgroundColor, fun s => s.styles.borderRadius]
    if styleGroups.length > 2 then
      [{ severity := "info", category := "UX: Loading States",
         message := toString styleGroups.length ++
           " different skeleton/placeholder styles on this page",
         detail := "Skeleton placeholders should have consistent colors and shapes for a polished loading experience.",
         url := some snap.url }] else []

/-- The tap-target check body for one tappable element (`minSize = 44`). -/
def tapTargetIssue (url : String) (tag text : String) (d : Dim) : List Issue :=
  let smaller := min d.width d.height
  if smaller > 0 ∧ smaller < 44 then
    [{ severity := "warning", category := "UX: Tap Targets",
       message := "Small tap target: <" ++ tag ++ ">" ++
         (if text ≠ "" then " \"" ++ strTake text 20 ++ "\"" else "") ++
         " is " ++ toString d.width ++ "×" ++ toString d.height ++ "px",
       detail := "Interactive elements should be at least 44×44px for comfortable touch interaction.",
       url := some url }] else []

/-- `_checkTapTargets` (`tappable = [...buttons, ...links]`). -/
def checkTapTargets (snap : Snapshot) : List Issue :=
  (snap.elements.buttons.map (fun b => (b.tag, b.text, b.dimensions)) ++
   snap.elements.links.map (fun l => (l.tag, l.text, l.dimensions))).flatMap
    (fun t => tapTargetIssue snap.url t.1 t.2.1 t.2.2)

/-- `btn.tabIndex === undefined || btn.tabIndex < 0`. -/
def tabIndexNotFocusable : Option Int → Bool
  | none => true
  | some t => t < 0

/-- The `_checkRoleButtonAccessibility` body for one buttons-category
element. -/
def roleButtonIssues (url : String) (btn : ButtonEl) : List Issue :=
  let hasAccessibleName :=
    btn.ariaLabel ≠ "" ∨ btn.title ≠ "" ∨ btn.text ≠ ""
  if btn.role = "button" ∨ btn.tag ≠ "button" then
    (if ¬ hasAccessibleName then
      [{ severity := "error", category := "Buttons: Accessibility",
         message := "Interactive element without accessible name: <" ++
           btn.tag ++ ">" ++
           (if btn.id ≠ "" then " #" ++ btn.id else "") ++
           (if btn.classes ≠ "" then " ." ++ firstClass btn.classes else ""),
         detail := "Buttons without visible text need an aria-label or title attribute for screen reader users.",
         url := some url }] else []) ++
    (if btn.role = "button" ∧ tabIndexNotFocusable btn.tabIndex then
      [{ severity := "warning", category := "Buttons: Accessibility",
         message := "role=\"button\" element not keyboard focusable: <" ++
           btn.tag ++ ">" ++
           (if btn.id ≠ "" then " #" ++ btn.id else ""),
         detail := "Elements with role=\"button\" should have tabindex=\"0\" to be keyboard accessible.",
         url := some url }] else [])
  else []

/-- `_checkRoleButtonAccessibility`. -/
def checkRoleButtonAccessibility (buttons : List ButtonEl) (url : String) :
    List Issue :=
  buttons.flatMap (roleButtonIssues url)

/-- `_checkThirdPartySurfaceArea` (the guard `!snapshot.thirdPartyResources`
skips only an absent field: an empty array is truthy in JS). -/
def checkThirdPartySurfaceArea (snap : Snapshot) : List Issue :=
  match snap.thirdPartyResources with
  | none => []
  | some tps =>
    if tps.length > 10 then
      let hosts := joinSep ", " (tps.map (fun tp => tp.host))
      [{ severity := "warning", category := "Performance: Third Parties",
         message := toString tps.length ++
           " third-party origins found on this page",
         detail := "Third-party hosts: " ++ strTake hosts 200 ++
           ". Each additional origin adds DNS/connection overhead and may impact performance.",
         url := some snap.url }] else []

/-- `analyzePage`: run every single-page detector and concatenate, in
source order. -/
def analyzePage (snapshot : Snapshot) : List Issue :=
  checkButtonConsistency snapshot.elements.buttons snapshot.url ++
  checkInputConsistency snapshot.elements.inputs snapshot.url ++
  checkHeadingHierarchy snapshot.elements.headings snapshot.url ++
  checkLinkConsistency snapshot.elements.links snapshot.url ++
  checkImageAccessibility snapshot.elements.images snapshot.url ++
  checkAboveFoldLazyImages snapshot ++
  checkHeroImageHints snapshot ++
  checkBackgroundImageHero snapshot ++
  checkOverlayBlocking snapshot ++
  checkSkeletonConsistency snapshot ++
  checkTapTargets snapshot ++
  checkRoleButtonAccessibility snapshot.elements.buttons snapshot.url ++
  checkThirdPartySurfaceArea snapshot

/-! ## Cross-page detectors -/

/-- The button style signature tuple of `_crossPageButtonConsistency`. -/
def buttonSig (b : ButtonEl) : String :=
  joinSep "|" [b.styles.fontSize, b.styles.fontFamily,
               b.styles.borderRadius, b.styles.padding]

/-- The `allStyles` map of `_crossPageButtonConsistency`:
`url -> button style signature set`.  The `Map` is keyed by `snap.url`, so a
later snapshot with the same `url` overwrites the earlier signature set
before the union is taken. -/
def buttonStylesMap (snapshots : List Snapshot) : List (String × List String) :=
  snapshots.foldl
    (fun m snap =>
      mapSet m snap.url (setList (snap.elements.buttons.map buttonSig))) []

/-- `_crossPageButtonConsistency`. -/
def crossPageButtonConsistency (snapshots : List Snapshot) : List Issue :=
  let allStyles := buttonStylesMap snapshots
  let allSigs := setList (allStyles.flatMap (fun p => p.2))
  if allSigs.length > 3 then
    [{ severity := "warning", category := "Cross-Page: Buttons",
       message := toString allSigs.length ++
         " different button styles found across " ++
         toString snapshots.length ++ " pages",
       detail := "Button styles should be consistent across pages. Consider using a shared component or CSS class." }]
  else []

/-- The input style signature tuple of `_crossPageInputConsistency`. -/
def inputSig (i : InputEl) : String :=
  joinSep "|" [i.styles.fontSize, i.styles.border,
               i.styles.borderRadius, i.styles.padding]

/-- `_crossPageInputConsistency`. -/
def crossPageInputConsistency (snapshots : List Snapshot) : List Issue :=
  let allSigs := setList
    (snapshots.flatMap (fun s => s.elements.inputs.map inputSig))
  if allSigs.length > 3 then
    [{ severity := "warning", category := "Cross-Page: Inputs",
       message := toString allSigs.length ++
         " different input styles found across " ++
         toString snapshots.length ++ " pages",
       detail := "Form inputs should look the same across your application for a coherent user experience." }]
  else []

/-- `_crossPageHeadingConsistency` (levels 1–3). -/
def crossPageHeadingConsistency (snapshots : List Snapshot) : List Issue :=
  [1, 2, 3].flatMap (fun level =>
    let fontSizes := setList (snapshots.flatMap (fun s =>
      (s.elements.headings.filter
        (fun h => h.tag = "h" ++ toString level)).map
          (fun h => h.styles.fontSize)))
    if fontSizes.length > 1 then
      [{ severity := "warning", category := "Cross-Page: Headings",
         message := "h" ++ toString level ++
           " font size varies across pages: " ++ joinSep ", " fontSizes,
         detail := "Heading level " ++ toString level ++
           " should have a consistent font size across all pages." }]
    else [])

/-- The non-empty `fontFamily` values of every element of a snapshot, in
`Object.values(snap.elements)` iteration order. -/
def elementFontFamilies (s : Snapshot) : List String :=
  (s.elements.buttons.map (fun e => e.styles.fontFamily) ++
   s.elements.inputs.map (fun e => e.styles.fontFamily) ++
   s.elements.headings.map (fun e => e.styles.fontFamily) ++
   s.elements.links.map (fun e => e.styles.fontFamily) ++
   s.elements.images.map (fun e => e.styles.fontFamily)).filter
    (fun f => f ≠ "")

/-- `_crossPageFontConsistency`. -/
def crossPageFontConsistency (snapshots : List Snapshot) : List Issue :=
  let fontFamilies := setList (snapshots.flatMap elementFontFamilies)
  if fontFamilies.length > 3 then
    [{ severity := "info", category := "Cross-Page: Typography",
       message := toString fontFamilies.length ++
         " different font families used across pages",
       detail := "Font families found: " ++
         joinSep "; " (fontFamilies.map (fun f => strTake f 40)) ++
         ". Most designs use 1-2 font families." }]
  else []

/-- `_crossPageStaleRouteMetadata`. -/
def crossPageStaleRouteMetadata (snapshots : List Snapshot) : List Issue :=
  if ¬ snapshots.any (fun s => s.isSPA) then [] else
  let uniqueUrls := setList (snapshots.map (fun s => s.url))
  if uniqueUrls.length < 2 then [] else
  (let uniqueTitles := setList (snapshots.map (fun s => s.title))
   if uniqueTitles.length = 1 ∧ uniqueUrls.length > 1 then
    [{ severity := "warning", category := "Cross-Page: SPA Navigation",
       message := "All " ++ toString snapshots.length ++
         " pages share the same title: \"" ++
         strTake (uniqueTitles.headD "") 60 ++ "\"",
       detail := "SPA routes should update document.title on navigation for better UX, tab management, and accessibility." }]
   else []) ++
  (let h1Texts := snapshots.map (fun s => s.primaryH1Text)
   let uniqueH1s := setList (h1Texts.filter (fun t => t ≠ ""))
   if uniqueH1s.length = 1 ∧ uniqueUrls.length > 2 then
    [{ severity := "info", category := "Cross-Page: SPA Navigation",
       message := "All pages share the same h1: \"" ++
         strTake (uniqueH1s.headD "") 60 ++ "\"",
       detail := "The primary heading should reflect the current route content." }]
   else [])

/-- The fixed tracking-parameter list of `_crossPageUrlParamDuplication`
(12 names: five `utm_` parameters and seven others). -/
def trackingParams : List String :=
  ["utm_source", "utm_medium", "utm_campaign", "utm_term", "utm_content",
   "gclid", "fbclid", "msclkid", "mc_cid", "mc_eid", "ref", "source"]

/-- `stripTracking(urlStr)`: parse, delete every tracking parameter, sort
the remaining parameters by name, and reassemble
`origin + pathname + search`; an unparseable string is returned unchanged
(the `catch` branch). -/
def stripTracking (urlStr : String) : String :=
  match parseUrl urlStr with
  | none => urlStr
  | some u =>
    let remaining := trackingParams.foldl
      (fun ps p => ps.filter (fun q => q.1 ≠ p)) u.params
    u.scheme ++ "://" ++ u.host ++ u.pathname ++
      serializeQuery (sortParams remaining)

/-- `snap.fullUrl || snap.url`. -/
def effectiveUrl (s : Snapshot) : String :=
  if s.fullUrl ≠ "" then s.fullUrl else s.url

/-- `_crossPageUrlParamDuplication`: group the effective URLs by their
stripped form, one warning per group of two or more. -/
def crossPageUrlParamDuplication (snapshots : List Snapshot) : List Issue :=
  let normalized := groupByKey stripTracking (snapshots.map effectiveUrl)
  normalized.flatMap (fun p =>
    if p.2.length > 1 then
      [{ severity := "warning", category := "Cross-Page: URL Hygiene",
         message := toString p.2.length ++
           " snapshots map to the same URL after stripping tracking params",
         detail := "Normalized URL: " ++ strTake p.1 100 ++
           ". Consider stripping tracking parameters client-side, using canonical URLs, or implementing No-Vary-Search on the server." }]
    else [])

/-- `_crossPageSameContentDifferentUrl` (snapshots with a falsy
`contentSignature` are skipped). -/
def crossPageSameContentDifferentUrl (snapshots : List Snapshot) :
    List Issue :=
  let sigMap := groupByKey (fun s => s.contentSignature)
    (snapshots.filter (fun s => s.contentSignature ≠ ""))
  sigMap.flatMap (fun p =>
    let uniqueUrls := setList (p.2.map (fun s => s.url))
    if uniqueUrls.length > 1 then
      [{ severity := "warning", category := "Cross-Page: Content Duplication",
         message := toString uniqueUrls.length ++
           " different URLs serve effectively identical content",
         detail := "URLs: " ++
           joinSep ", " (uniqueUrls.map (fun u => strTake u 80)) ++
           ". This may indicate URL parameter noise or routing misconfiguration." }]
    else [])

/-- `_crossPageThirdPartyDrift` (only snapshots whose
`thirdPartyResources` field is present participate; present-but-empty
counts as 0). -/
def crossPageThirdPartyDrift (snapshots : List Snapshot) : List Issue :=
  let pageCounts := (snapshots.filter
      (fun s => s.thirdPartyResources.isSome)).map
    (fun s => (s.url, (s.thirdPartyResources.getD []).length))
  if pageCounts.length < 2 then [] else
  let counts := pageCounts.map (fun p => p.2)
  let mn := natMinList counts
  let mx := natMaxList counts
  if mx > 0 ∧ mx - mn > 5 then
    let minPage := (pageCounts.find? (fun p => p.2 == mn)).getD ("", 0)
    let maxPage := (pageCounts.find? (fun p => p.2 == mx)).getD ("", 0)
    [{ severity := "warning", category := "Cross-Page: Third Parties",
       message := "Third-party count varies widely: " ++ toString mn ++
         " to " ++ toString mx ++ " across pages",
       detail := "Fewest (" ++ toString mn ++ "): " ++
         strTake minPage.1 60 ++ "; Most (" ++ toString mx ++ "): " ++
         strTake maxPage.1 60 ++
         ". Large variance may cause inconsistent performance and user experience across routes." }]
  else []

/-- `Math.round(hiddenRatio * 100)` with `hiddenRatio = h / t`, computed
exactly over the rationals (the JS doubles are exact for all realistic DOM
counts). -/
def roundRatio100 (h t : Nat) : Nat :=
  (200 * h + t) / (2 * t)

/-- `_crossPageDomBloat`.  The growth test `last > first * 1.3` and the
ratio test `hidden / total > 0.3` are modelled exactly over the rationals
(`10 * last > 13 * first`, `10 * hidden > 3 * total`). -/
def crossPageDomBloat (snapshots : List Snapshot) : List Issue :=
  let withStats := snapshots.filter (fun s => s.domStats.isSome)
  if withStats.length < 2 then [] else
  let counts : List Nat := withStats.map
    (fun s => (s.domStats.getD (⟨0, 0⟩ : DomStats)).totalElementCount)
  let firstC : Nat := counts.headD 0
  let lastC : Nat := counts.getLastD 0
  let monotonic := (counts.zip counts.tail).all (fun p => decide (p.1 ≤ p.2))
  (if monotonic && decide (10 * lastC > 13 * firstC) &&
      decide (counts.length ≥ 3) then
    [{ severity := "warning", category := "Cross-Page: SPA Health",
       message := "DOM size grew from " ++ toString firstC ++ " to " ++
         toString lastC ++ " elements across " ++ toString counts.length ++
         " navigations",
       detail := "DOM element count is increasing with each navigation, suggesting old route views are not being unmounted. This can degrade performance over time." }]
   else []) ++
  (let lastStats :=
    (withStats.getLastD ({} : Snapshot)).domStats.getD (⟨0, 0⟩ : DomStats)
   if 10 * lastStats.hiddenElementCount > 3 * lastStats.totalElementCount ∧
      lastStats.hiddenElementCount > 100 then
    [{ severity := "info", category := "Cross-Page: SPA Health",
       message := toString
           (roundRatio100 lastStats.hiddenElementCount
             lastStats.totalElementCount) ++
         "% of DOM elements are hidden (" ++
         toString lastStats.hiddenElementCount ++ " of " ++
         toString lastStats.totalElementCount ++ ")",
       detail := "A large proportion of hidden elements may indicate retained but unmounted views in an SPA." }]
   else [])

/-- The skeleton style signature of `_crossPageSkeletonConsistency`. -/
def skeletonSig (sk : Skeleton) : String :=
  joinSep "|" [sk.styles.backgroundColor, sk.styles.borderRadius]

/-- `_crossPageSkeletonConsistency` (`s.skeletons && s.skeletons.length > 0`:
an absent or empty list is skipped). -/
def crossPageSkeletonConsistency (snapshots : List Snapshot) : List Issue :=
  let withSkeletons := snapshots.filter
    (fun s => decide (0 < (s.skeletons.getD []).length))
  if withSkeletons.length < 2 then [] else
  let allSigs := setList
    (withSkeletons.flatMap (fun s => (s.skeletons.getD []).map skeletonSig))
  if allSigs.length > 3 then
    [{ severity := "warning", category := "Cross-Page: Loading States",
       message := toString allSigs.length ++
         " different skeleton styles found across " ++
         toString withSkeletons.length ++ " pages",
       detail := "Loading placeholders should look consistent across all routes for a polished experience." }]
  else []

/-- Stable ascending insertion for `sort((a, b) => a - b)`. -/
def insNat (x : Nat) : List Nat → List Nat
  | [] => [x]
  | y :: ys => if y ≤ x then y :: insNat x ys else x :: y :: ys

/-- Ascending numeric sort. -/
def sortNats (l : List Nat) : List Nat :=
  l.foldl (fun acc x => insNat x acc) []

/-- `_crossPageTapTargetDrift`.  The ratio test `max / min > 2` is modelled
exactly as `max > 2 * min` (equivalent for positive integers). -/
def crossPageTapTargetDrift (snapshots : List Snapshot) : List Issue :=
  if snapshots.length < 2 then [] else
  let medianSizes := snapshots.filterMap (fun snap =>
    let tappable :=
      snap.elements.buttons.map (fun b => b.dimensions) ++
      snap.elements.links.map (fun l => l.dimensions)
    if tappable.length = 0 then none else
    let sizes := sortNats
      ((tappable.map (fun d => min d.width d.height)).filter
        (fun s => decide (0 < s)))
    if sizes.length = 0 then none else
    some (snap.url, sizes.getD (sizes.length / 2) 0))
  if medianSizes.length < 2 then [] else
  let medians := medianSizes.map (fun m => m.2)
  let mn := natMinList medians
  let mx := natMaxList medians
  if mx > 0 ∧ mn > 0 ∧ mx > 2 * mn then
    [{ severity := "info", category := "Cross-Page: Tap Targets",
       message := "Median interactive element size varies widely: " ++
         toString mn ++ "px to " ++ toString mx ++ "px across pages",
       detail := "Large variation in tap target sizes across routes may indicate inconsistent UI density or missing design tokens." }]
  else []

/-- `compareSnapshots`: empty for fewer than two snapshots, otherwise every
cross-page detector concatenated in source order. -/
def compareSnapshots (snapshots : List Snapshot) : List Issue :=
  if snapshots.length < 2 then [] else
  crossPageButtonConsistency snapshots ++
  crossPageInputConsistency snapshots ++
  crossPageHeadingConsistency snapshots ++
  crossPageFontConsistency snapshots ++
  crossPageStaleRouteMetadata snapshots ++
  crossPageUrlParamDuplication snapshots ++
  crossPageSameContentDifferentUrl snapshots ++
  crossPageThirdPartyDrift snapshots ++
  crossPageDomBloat snapshots ++
  crossPageSkeletonConsistency snapshots ++
  crossPageTapTargetDrift snapshots

/-! ## Lemmas: the JS `Set` model -/

/-- The three severities every detector writes. -/
def sevOK (i : Issue) : Prop :=
  i.severity = "error" ∨ i.severity = "warning" ∨ i.severity = "info"

theorem mem_ite_singleton {c : Prop} [Decidable c] {x i : Issue}
    (h : i ∈ (if c then [x] else ([] : List Issue))) : i = x := by
  split at h
  · simpa using h
  · simp at h

theorem mem_setAdd {l : List String} {x a : String} :
    a ∈ setAdd l x ↔ a ∈ l ∨ a = x := by
  unfold setAdd
  by_cases h : x ∈ l
  · rw [if_pos h]
    constructor
    · exact Or.inl
    · rintro (ha | rfl)
      · exact ha
      · exact h
  · rw [if_neg h]
    simp

theorem nodup_setAdd {l : List String} {x : String} (h : l.Nodup) :
    (setAdd l x).Nodup := by
  unfold setAdd
  by_cases hx : x ∈ l
  · rwa [if_pos hx]
  · rw [if_neg hx]
    rw [List.nodup_append]
    refine ⟨h, List.nodup_singleton x, ?_⟩
    intro a ha hax
    simp at hax
    subst hax
    exact hx ha

theorem mem_foldl_setAdd (xs : List String) :
    ∀ (acc : List String) (a : String),
      a ∈ xs.foldl setAdd acc ↔ a ∈ acc ∨ a ∈ xs := by
  induction xs with
  | nil => simp
  | cons x xs ih =>
    intro acc a
    simp only [List.foldl_cons]
    rw [ih, mem_setAdd, List.mem_cons]
    tauto

theorem mem_setList {xs : List String} {a : String} :
    a ∈ setList xs ↔ a ∈ xs := by
  unfold setList
  rw [mem_foldl_setAdd]
  simp

theorem nodup_foldl_setAdd (xs : List String) :
    ∀ acc : List String, acc.Nodup → (xs.foldl setAdd acc).Nodup := by
  induction xs with
  | nil => intro acc h; simpa
  | cons x xs ih => intro acc h; exact ih _ (nodup_setAdd h)

theorem nodup_setList (xs : List String) : (setList xs).Nodup :=
  nodup_foldl_setAdd xs [] List.nodup_nil

theorem length_setList (xs : List String) :
    (setList xs).length = xs.toFinset.card := by
  have h1 : (setList xs).toFinset = xs.toFinset := by
    ext a
    simp [List.mem_toFinset, mem_setList]
  rw [← h1, List.toFinset_card_of_nodup (nodup_setList xs)]

theorem length_setList_mono {xs ys : List String} (h : ∀ a ∈ xs, a ∈ ys) :
    (setList xs).length ≤ (setList ys).length := by
  rw [length_setList, length_setList]
  exact Finset.card_le_card
    (fun a ha => List.mem_toFinset.mpr (h a (List.mem_toFinset.mp ha)))

theorem setList_concat (xs : List String) (a : String) :
    setList (xs ++ [a]) = setAdd (setList xs) a := by
  unfold setList
  rw [List.foldl_append]
  rfl

/-! ## Lemmas: the JS `Map` model and grouping -/

/-- The key list of an association-list map. -/
def mapKeys {α : Type} (m : List (String × α)) : List String :=
  m.map (fun p => p.1)

theorem any_key_iff {α : Type} {m : List (String × α)} {k : String} :
    m.any (fun p => p.1 = k) = true ↔ k ∈ mapKeys m := by
  unfold mapKeys
  simp [List.any_eq_true, List.mem_map]

theorem mapKeys_mapSet {α : Type} (m : List (String × α)) (k : String) (v : α) :
    mapKeys (mapSet m k v) = setAdd (mapKeys m) k := by
  unfold mapSet setAdd
  by_cases h : k ∈ mapKeys m
  · rw [if_pos (any_key_iff.mpr h), if_pos h]
    unfold mapKeys
    rw [List.map_map]
    apply List.map_congr_left
    intro p _
    simp only [Function.comp_apply]
    by_cases hp : p.1 = k
    · rw [if_pos hp]
    · rw [if_neg hp]
  · have hany : ¬ (m.any (fun p => p.1 = k) = true) := fun hc => h (any_key_iff.mp hc)
    rw [if_neg hany, if_neg h]
    unfold mapKeys
    simp

theorem mapKeys_mapPush {α : Type} (m : List (String × List α)) (k : String) (v : α) :
    mapKeys (mapPush m k v) = setAdd (mapKeys m) k := by
  unfold mapPush setAdd
  by_cases h : k ∈ mapKeys m
  · rw [if_pos (any_key_iff.mpr h), if_pos h]
    unfold mapKeys
    rw [List.map_map]
    apply List.map_congr_left
    intro p _
    simp only [Function.comp_apply]
    by_cases hp : p.1 = k
    · rw [if_pos hp]
    · rw [if_neg hp]
  · have hany : ¬ (m.any (fun p => p.1 = k) = true) := fun hc => h (any_key_iff.mp hc)
    rw [if_neg hany, if_neg h]
    unfold mapKeys
    simp

theorem mapSet_fresh {α : Type} (m : List (String × α)) (k : String) (v : α)
    (h : k ∉ mapKeys m) : mapSet m k v = m ++ [(k, v)] := by
  unfold mapSet
  rw [if_neg (fun hc => h (any_key_iff.mp hc))]

/-- Closed form of `groupByKey`: the distinct keys in first-occurrence
order, each paired with the sublist of elements carrying it. -/
def groupCanon {α : Type} (key : α → String) (l : List α) :
    List (String × List α) :=
  (setList (l.map key)).map (fun k => (k, l.filter (fun x => key x = k)))

theorem groupByKey_step {α : Type} (key : α → String) (l : List α) (x : α) :
    groupByKey key (l ++ [x]) = mapPush (groupByKey key l) (key x) x := by
  unfold groupByKey
  rw [List.foldl_append]
  rfl

theorem mapKeys_groupCanon {α : Type} (key : α → String) (l : List α) :
    mapKeys (groupCanon key l) = setList (l.map key) := by
  unfold groupCanon mapKeys
  rw [List.map_map]
  exact List.map_id' _

theorem mapPush_groupCanon {α : Type} (key : α → String) (l : List α) (x : α) :
    mapPush (groupCanon key l) (key x) x = groupCanon key (l ++ [x]) := by
  have hmapapp : (l ++ [x]).map key = l.map key ++ [key x] := by simp
  by_cases h : key x ∈ setList (l.map key)
  · have hany : (groupCanon key l).any (fun p => p.1 = key x) = true :=
      any_key_iff.mpr (by rw [mapKeys_groupCanon]; exact h)
    have hset : setList ((l ++ [x]).map key) = setList (l.map key) := by
      rw [hmapapp, setList_concat]
      unfold setAdd
      rw [if_pos h]
    unfold mapPush
    rw [if_pos hany]
    unfold groupCanon
    rw [hset, List.map_map]
    apply List.map_congr_left
    intro k _
    simp only [Function.comp_apply]
    by_cases hk : k = key x
    · rw [if_pos hk]
      subst hk
      rw [List.filter_append]
      simp
    · rw [if_neg hk]
      rw [List.filter_append]
      have : [x].filter (fun y => key y = k) = [] := by
        simp
        intro hc
        exact hk (by rw [hc])
      rw [this, List.append_nil]
  · have hany : ¬ ((groupCanon key l).any (fun p => p.1 = key x) = true) := by
      intro hc
      rw [any_key_iff, mapKeys_groupCanon] at hc
      exact h hc
    have hset : setList ((l ++ [x]).map key) =
        setList (l.map key) ++ [key x] := by
      rw [hmapapp, setList_concat]
      unfold setAdd
      rw [if_neg h]
    unfold mapPush
    rw [if_neg hany]
    unfold groupCanon
    rw [hset, List.map_append]
    congr 1
    · apply List.map_congr_left
      intro k hkmem
      have hk : ¬ (k = key x) := by
        intro hc
        subst hc
        exact h hkmem
      rw [List.filter_append]
      have : [x].filter (fun y => key y = k) = [] := by
        simp
        intro hc
        exact hk (by rw [hc])
      rw [this, List.append_nil]
    · simp only [List.map_cons, List.map_nil]
      have hnil : l.filter (fun y => key y = key x) = [] := by
        rw [List.filter_eq_nil_iff]
        intro a ha
        simp only [decide_eq_true_eq]
        intro hc
        apply h
        rw [mem_setList, List.mem_map]
        exact ⟨a, ha, hc⟩
      rw [List.filter_append, hnil]
      simp

theorem groupByKey_eq_canon {α : Type} (key : α → String) (l : List α) :
    groupByKey key l = groupCanon key l := by
  induction l using List.reverseRecOn with
  | nil => rfl
  | append_singleton l x ih =>
    rw [groupByKey_step, ih, mapPush_groupCanon]

/-- The length of a `flatMap` that emits one issue per element satisfying a
condition is the count of satisfying elements. -/
theorem length_flatMap_ite {α : Type} (l : List α) (p : α → Prop)
    [DecidablePred p] (f : α → Issue) :
    (l.flatMap (fun e => if p e then [f e] else [])).length =
      l.countP (fun e => decide (p e)) := by
  induction l with
  | nil => rfl
  | cons x xs ih =>
    rw [List.flatMap_cons, List.length_append, ih, List.countP_cons]
    by_cases h : p x
    · simp [h]
      omega
    · simp [h]

/-! ## Shape lemmas: category, url and severity of every detector -/

/-- Every issue of a detector has its fixed category, the given `url`
field, and one of the three severities. -/
def shapeP (c : String) (u : Option String) (i : Issue) : Prop :=
  i.category = c ∧ i.url = u ∧ sevOK i

/-- All issues of a list satisfy `P`. -/
def allIssues (P : Issue → Prop) (l : List Issue) : Prop :=
  ∀ i ∈ l, P i

theorem allIssues_nil {P : Issue → Prop} : allIssues P [] := by
  intro i hi
  simp at hi

theorem allIssues_append {P : Issue → Prop} {l₁ l₂ : List Issue}
    (h₁ : allIssues P l₁) (h₂ : allIssues P l₂) : allIssues P (l₁ ++ l₂) := by
  intro i hi
  rcases List.mem_append.mp hi with h | h
  · exact h₁ i h
  · exact h₂ i h

theorem allIssues_ite {P : Issue → Prop} {c : Prop} [Decidable c]
    {l₁ l₂ : List Issue} (h₁ : allIssues P l₁) (h₂ : allIssues P l₂) :
    allIssues P (if c then l₁ else l₂) := by
  split
  · exact h₁
  · exact h₂

theorem allIssues_ite_singleton {P : Issue → Prop} {c : Prop} [Decidable c]
    {x : Issue} (h : P x) : allIssues P (if c then [x] else []) := by
  apply allIssues_ite
  · intro i hi
    rw [List.mem_singleton.mp hi]
    exact h
  · exact allIssues_nil

theorem allIssues_flatMap {α : Type} {P : Issue → Prop} {l : List α}
    {f : α → List Issue} (h : ∀ b ∈ l, allIssues P (f b)) :
    allIssues P (l.flatMap f) := by
  intro i hi
  obtain ⟨b, hb, hbi⟩ := List.mem_flatMap.mp hi
  exact h b hb i hbi

theorem allIssues_map {α : Type} {P : Issue → Prop} {l : List α}
    {f : α → Issue} (h : ∀ b ∈ l, P (f b)) : allIssues P (l.map f) := by
  intro i hi
  obtain ⟨b, hb, hbi⟩ := List.mem_map.mp hi
  rw [← hbi]
  exact h b hb

theorem shape_checkButtonConsistency (buttons : List ButtonEl) (url : String) :
    allIssues (shapeP "Buttons" (some url)) (checkButtonConsistency buttons url) := by
  unfold checkButtonConsistency
  split
  · exact allIssues_nil
  · refine allIssues_append (allIssues_append (allIssues_append
      (allIssues_ite_singleton ⟨rfl, rfl, Or.inr (Or.inl rfl)⟩)
      (allIssues_ite_singleton ⟨rfl, rfl, Or.inr (Or.inl rfl)⟩))
      (allIssues_ite_singleton ⟨rfl, rfl, Or.inr (Or.inr rfl)⟩)) ?_
    exact allIssues_flatMap fun b _ =>
      allIssues_ite_singleton ⟨rfl, rfl, Or.inl rfl⟩

theorem shape_checkInputConsistency (inputs : List InputEl) (url : String) :
    allIssues (shapeP "Inputs" (some url)) (checkInputConsistency inputs url) := by
  unfold checkInputConsistency
  split
  · exact allIssues_nil
  · refine allIssues_append (allIssues_ite_singleton ⟨rfl, rfl, Or.inr (Or.inl rfl)⟩) ?_
    exact allIssues_flatMap fun b _ =>
      allIssues_ite_singleton ⟨rfl, rfl, Or.inr (Or.inr rfl)⟩

theorem shape_headingSkipIssue (url : String) (prev cur : HeadingEl) :
    allIssues (shapeP "Headings" (some url)) (headingSkipIssue url prev cur) := by
  unfold headingSkipIssue
  split
  · exact allIssues_ite_singleton ⟨rfl, rfl, Or.inr (Or.inl rfl)⟩
  · exact allIssues_nil

theorem shape_checkHeadingHierarchy (headings : List HeadingEl) (url : String) :
    allIssues (shapeP "Headings" (some url)) (checkHeadingHierarchy headings url) := by
  unfold checkHeadingHierarchy
  split
  · exact allIssues_nil
  · refine allIssues_append (allIssues_append (allIssues_append
      (allIssues_flatMap fun (pc : HeadingEl × HeadingEl) _ =>
        shape_headingSkipIssue url pc.1 pc.2)
      (allIssues_ite_singleton ⟨rfl, rfl, Or.inr (Or.inr rfl)⟩))
      (allIssues_ite_singleton ⟨rfl, rfl, Or.inr (Or.inl rfl)⟩)) ?_
    refine allIssues_flatMap fun level _ => ?_
    refine allIssues_ite ?_ allIssues_nil
    exact allIssues_ite_singleton ⟨rfl, rfl, Or.inr (Or.inl rfl)⟩

theorem shape_checkLinkConsistency (links : List LinkEl) (url : String) :
    allIssues (shapeP "Links" (some url)) (checkLinkConsistency links url) := by
  unfold checkLinkConsistency
  split
  · exact allIssues_nil
  · exact allIssues_ite_singleton ⟨rfl, rfl, Or.inr (Or.inr rfl)⟩

theorem shape_checkImageAccessibility (images : List ImageEl) (url : String) :
    allIssues (shapeP "Images" (some url)) (checkImageAccessibility images url) := by
  unfold checkImageAccessibility
  exact allIssues_flatMap fun img _ =>
    allIssues_ite_singleton ⟨rfl, rfl, Or.inl rfl⟩

theorem shape_checkAboveFoldLazyImages (snap : Snapshot) :
    allIssues (shapeP "Images: Performance" (some snap.url))
      (checkAboveFoldLazyImages snap) := by
  simp only [checkAboveFoldLazyImages]
  split
  · exact allIssues_nil
  · refine allIssues_flatMap fun img _ => ?_
    refine allIssues_ite ?_ allIssues_nil
    exact allIssues_ite_singleton ⟨rfl, rfl, Or.inr (Or.inl rfl)⟩

theorem shape_checkHeroImageHints (snap : Snapshot) :
    allIssues (shapeP "Images: Performance" (some snap.url))
      (checkHeroImageHints snap) := by
  simp only [checkHeroImageHints]
  split
  · exact allIssues_nil
  · split
    · exact allIssues_nil
    · refine allIssues_ite allIssues_nil ?_
      refine allIssues_append (allIssues_ite_singleton ⟨rfl, rfl, Or.inr (Or.inr rfl)⟩) ?_
      exact allIssues_ite_singleton ⟨rfl, rfl, Or.inr (Or.inl rfl)⟩

theorem shape_checkBackgroundImageHero (snap : Snapshot) :
    allIssues (shapeP "Layout: Performance" (some snap.url))
      (checkBackgroundImageHero snap) := by
  unfold checkBackgroundImageHero
  split
  · exact allIssues_nil
  · exact allIssues_map fun c _ => ⟨rfl, rfl, Or.inr (Or.inl rfl)⟩

theorem shape_checkOverlayBlocking (snap : Snapshot) :
    allIssues (shapeP "UX: Render Blocking" (some snap.url))
      (checkOverlayBlocking snap) := by
  unfold checkOverlayBlocking
  refine allIssues_append ?_ ?_
  · split
    · exact allIssues_nil
    · refine allIssues_append (allIssues_ite_singleton ⟨rfl, rfl, Or.inl rfl⟩) ?_
      exact allIssues_ite_singleton ⟨rfl, rfl, Or.inl rfl⟩
  · split
    · exact allIssues_nil
    · exact allIssues_flatMap fun o _ =>
        allIssues_ite_singleton ⟨rfl, rfl, Or.inr (Or.inl rfl)⟩

theorem shape_checkSkeletonConsistency (snap : Snapshot) :
    allIssues (shapeP "UX: Loading States" (some snap.url))
      (checkSkeletonConsistency snap) := by
  unfold checkSkeletonConsistency
  split
  · exact allIssues_nil
  · split
    · exact allIssues_nil
    · exact allIssues_ite_singleton ⟨rfl, rfl, Or.inr (Or.inr rfl)⟩

theorem shape_tapTargetIssue (url tag text : String) (d : Dim) :
    allIssues (shapeP "UX: Tap Targets" (some url))
      (tapTargetIssue url tag text d) := by
  unfold tapTargetIssue
  exact allIssues_ite_singleton ⟨rfl, rfl, Or.inr (Or.inl rfl)⟩

theorem shape_checkTapTargets (snap : Snapshot) :
    allIssues (shapeP "UX: Tap Targets" (some snap.url))
      (checkTapTargets snap) := by
  unfold checkTapTargets
  exact allIssues_flatMap fun t _ => shape_tapTargetIssue snap.url t.1 t.2.1 t.2.2

theorem shape_roleButtonIssues (url : String) (btn : ButtonEl) :
    allIssues (shapeP "Buttons: Accessibility" (some url))
      (roleButtonIssues url btn) := by
  unfold roleButtonIssues
  refine allIssues_ite ?_ allIssues_nil
  refine allIssues_append (allIssues_ite_singleton ⟨rfl, rfl, Or.inl rfl⟩) ?_
  exact allIssues_ite_singleton ⟨rfl, rfl, Or.inr (Or.inl rfl)⟩

theorem shape_checkRoleButtonAccessibility (buttons : List ButtonEl) (url : String) :
    allIssues (shapeP "Buttons: Accessibility" (some url))
      (checkRoleButtonAccessibility buttons url) := by
  unfold checkRoleButtonAccessibility
  exact allIssues_flatMap fun b _ => shape_roleButtonIssues url b

theorem shape_checkThirdPartySurfaceArea (snap : Snapshot) :
    allIssues (shapeP "Performance: Third Parties" (some snap.url))
      (checkThirdPartySurfaceArea snap) := by
  unfold checkThirdPartySurfaceArea
  split
  · exact allIssues_nil
  · exact allIssues_ite_singleton ⟨rfl, rfl, Or.inr (Or.inl rfl)⟩

theorem shape_crossPageButtonConsistency (snapshots : List Snapshot) :
    allIssues (shapeP "Cross-Page: Buttons" none)
      (crossPageButtonConsistency snapshots) := by
  simp only [crossPageButtonConsistency]
  exact allIssues_ite_singleton ⟨rfl, rfl, Or.inr (Or.inl rfl)⟩

theorem shape_crossPageInputConsistency (snapshots : List Snapshot) :
    allIssues (shapeP "Cross-Page: Inputs" none)
      (crossPageInputConsistency snapshots) := by
  simp only [crossPageInputConsistency]
  exact allIssues_ite_singleton ⟨rfl, rfl, Or.inr (Or.inl rfl)⟩

theorem shape_crossPageHeadingConsistency (snapshots : List Snapshot) :
    allIssues (shapeP "Cross-Page: Headings" none)
      (crossPageHeadingConsistency snapshots) := by
  simp only [crossPageHeadingConsistency]
  exact allIssues_flatMap fun level _ =>
    allIssues_ite_singleton ⟨rfl, rfl, Or.inr (Or.inl rfl)⟩

theorem shape_crossPageFontConsistency (snapshots : List Snapshot) :
    allIssues (shapeP "Cross-Page: Typography" none)
      (crossPageFontConsistency snapshots) := by
  simp only [crossPageFontConsistency]
  exact allIssues_ite_singleton ⟨rfl, rfl, Or.inr (Or.inr rfl)⟩

theorem shape_crossPageStaleRouteMetadata (snapshots : List Snapshot) :
    allIssues (shapeP "Cross-Page: SPA Navigation" none)
      (crossPageStaleRouteMetadata snapshots) := by
  simp only [crossPageStaleRouteMetadata]
  split
  · exact allIssues_nil
  · split
    · exact allIssues_nil
    · exact allIssues_append
        (allIssues_ite_singleton ⟨rfl, rfl, Or.inr (Or.inl rfl)⟩)
        (allIssues_ite_singleton ⟨rfl, rfl, Or.inr (Or.inr rfl)⟩)

theorem shape_crossPageUrlParamDuplication (snapshots : List Snapshot) :
    allIssues (shapeP "Cross-Page: URL Hygiene" none)
      (crossPageUrlParamDuplication snapshots) := by
  simp only [crossPageUrlParamDuplication]
  exact allIssues_flatMap fun p _ =>
    allIssues_ite_singleton ⟨rfl, rfl, Or.inr (Or.inl rfl)⟩

theorem shape_crossPageSameContentDifferentUrl (snapshots : List Snapshot) :
    allIssues (shapeP "Cross-Page: Content Duplication" none)
      (crossPageSameContentDifferentUrl snapshots) := by
  simp only [crossPageSameContentDifferentUrl]
  exact allIssues_flatMap fun p _ =>
    allIssues_ite_singleton ⟨rfl, rfl, Or.inr (Or.inl rfl)⟩

theorem shape_crossPageThirdPartyDrift (snapshots : List Snapshot) :
    allIssues (shapeP "Cross-Page: Third Parties" none)
      (crossPageThirdPartyDrift snapshots) := by
  simp only [crossPageThirdPartyDrift]
  split
  · exact allIssues_nil
  · exact allIssues_ite_singleton ⟨rfl, rfl, Or.inr (Or.inl rfl)⟩

theorem shape_crossPageDomBloat (snapshots : List Snapshot) :
    allIssues (shapeP "Cross-Page: SPA Health" none)
      (crossPageDomBloat snapshots) := by
  simp only [crossPageDomBloat]
  split
  · exact allIssues_nil
  · exact allIssues_append
      (allIssues_ite (by
        intro i hi
        rw [List.mem_singleton.mp hi]
        exact ⟨rfl, rfl, Or.inr (Or.inl rfl)⟩) allIssues_nil)
      (allIssues_ite_singleton ⟨rfl, rfl, Or.inr (Or.inr rfl)⟩)

theorem shape_crossPageSkeletonConsistency (snapshots : List Snapshot) :
    allIssues (shapeP "Cross-Page: Loading States" none)
      (crossPageSkeletonConsistency snapshots) := by
  simp only [crossPageSkeletonConsistency]
  split
  · exact allIssues_nil
  · exact allIssues_ite_singleton ⟨rfl, rfl, Or.inr (Or.inl rfl)⟩

theorem shape_crossPageTapTargetDrift (snapshots : List Snapshot) :
    allIssues (shapeP "Cross-Page: Tap Targets" none)
      (crossPageTapTargetDrift snapshots) := by
  simp only [crossPageTapTargetDrift]
  split
  · exact allIssues_nil
  · split
    · exact allIssues_nil
    · exact allIssues_ite_singleton ⟨rfl, rfl, Or.inr (Or.inr rfl)⟩

/-- Weaken a shape fact to the url/severity part. -/
theorem allIssues_weaken {P Q : Issue → Prop} {l : List Issue}
    (h : ∀ i, P i → Q i) (hl : allIssues P l) : allIssues Q l :=
  fun i hi => h i (hl i hi)

/-- Every `analyzePage` issue carries the snapshot url and a legal
severity. -/
theorem shape_analyzePage (snap : Snapshot) :
    allIssues (fun i => i.url = some snap.url ∧ sevOK i) (analyzePage snap) := by
  have w : ∀ (c : String) (l : List Issue),
      allIssues (shapeP c (some snap.url)) l →
      allIssues (fun i => i.url = some snap.url ∧ sevOK i) l :=
    fun c l h => allIssues_weaken (fun i hp => ⟨hp.2.1, hp.2.2⟩) h
  unfold analyzePage
  exact allIssues_append (allIssues_append (allIssues_append (allIssues_append
    (allIssues_append (allIssues_append (allIssues_append (allIssues_append
    (allIssues_append (allIssues_append (allIssues_append (allIssues_append
      (w _ _ (shape_checkButtonConsistency _ _))
      (w _ _ (shape_checkInputConsistency _ _)))
      (w _ _ (shape_checkHeadingHierarchy _ _)))
      (w _ _ (shape_checkLinkConsistency _ _)))
      (w _ _ (shape_checkImageAccessibility _ _)))
      (w _ _ (shape_checkAboveFoldLazyImages _)))
      (w _ _ (shape_checkHeroImageHints _)))
      (w _ _ (shape_checkBackgroundImageHero _)))
      (w _ _ (shape_checkOverlayBlocking _)))
      (w _ _ (shape_checkSkeletonConsistency _)))
      (w _ _ (shape_checkTapTargets _)))
      (w _ _ (shape_checkRoleButtonAccessibility _ _)))
      (w _ _ (shape_checkThirdPartySurfaceArea _))

/-- Every `compareSnapshots` issue has no url and a legal severity. -/
theorem shape_compareSnapshots (snapshots : List Snapshot) :
    allIssues (fun i => i.url = none ∧ sevOK i)
      (compareSnapshots snapshots) := by
  have w : ∀ (c : String) (l : List Issue),
      allIssues (shapeP c none) l →
      allIssues (fun i => i.url = none ∧ sevOK i) l :=
    fun c l h => allIssues_weaken (fun i hp => ⟨hp.2.1, hp.2.2⟩) h
  unfold compareSnapshots
  split
  · exact allIssues_nil
  · exact allIssues_append (allIssues_append (allIssues_append
      (allIssues_append (allIssues_append (allIssues_append (allIssues_append
      (allIssues_append (allIssues_append (allIssues_append
        (w _ _ (shape_crossPageButtonConsistency _))
        (w _ _ (shape_crossPageInputConsistency _)))
        (w _ _ (shape_crossPageHeadingConsistency _)))
        (w _ _ (shape_crossPageFontConsistency _)))
        (w _ _ (shape_crossPageStaleRouteMetadata _)))
        (w _ _ (shape_crossPageUrlParamDuplication _)))
        (w _ _ (shape_crossPageSameContentDifferentUrl _)))
        (w _ _ (shape_crossPageThirdPartyDrift _)))
        (w _ _ (shape_crossPageDomBloat _)))
        (w _ _ (shape_crossPageSkeletonConsistency _)))
        (w _ _ (shape_crossPageTapTargetDrift _))

/-! ## Filtering detector output by category -/

theorem filter_nil_of_cat {c : String} {u : Option String} {l : List Issue}
    (hs : allIssues (shapeP c u) l) {q : Issue → Bool}
    (hq : ∀ i : Issue, i.category = c → q i = false) :
    l.filter q = [] := by
  rw [List.filter_eq_nil_iff]
  intro i hi hqi
  rw [hq i (hs i hi).1] at hqi
  cases hqi

theorem filter_self_of_cat {c : String} {u : Option String} {l : List Issue}
    (hs : allIssues (shapeP c u) l) {q : Issue → Bool}
    (hq : ∀ i : Issue, i.category = c → q i = true) :
    l.filter q = l := by
  rw [List.filter_eq_self]
  intro i hi
  exact hq i (hs i hi).1

theorem analyzePage_filter_btnErr (snap : Snapshot) :
    (analyzePage snap).filter
        (fun i => i.category = "Buttons" ∧ i.severity = "error") =
      (checkButtonConsistency snap.elements.buttons snap.url).filter
        (fun i => i.category = "Buttons" ∧ i.severity = "error") := by
  unfold analyzePage
  simp only [List.filter_append]
  rw [filter_nil_of_cat (shape_checkInputConsistency _ _) (fun i hc => by rw [hc]; rfl),
      filter_nil_of_cat (shape_checkHeadingHierarchy _ _) (fun i hc => by rw [hc]; rfl),
      filter_nil_of_cat (shape_checkLinkConsistency _ _) (fun i hc => by rw [hc]; rfl),
      filter_nil_of_cat (shape_checkImageAccessibility _ _) (fun i hc => by rw [hc]; rfl),
      filter_nil_of_cat (shape_checkAboveFoldLazyImages _) (fun i hc => by rw [hc]; rfl),
      filter_nil_of_cat (shape_checkHeroImageHints _) (fun i hc => by rw [hc]; rfl),
      filter_nil_of_cat (shape_checkBackgroundImageHero _) (fun i hc => by rw [hc]; rfl),
      filter_nil_of_cat (shape_checkOverlayBlocking _) (fun i hc => by rw [hc]; rfl),
      filter_nil_of_cat (shape_checkSkeletonConsistency _) (fun i hc => by rw [hc]; rfl),
      filter_nil_of_cat (shape_checkTapTargets _) (fun i hc => by rw [hc]; rfl),
      filter_nil_of_cat (shape_checkRoleButtonAccessibility _ _) (fun i hc => by rw [hc]; rfl),
      filter_nil_of_cat (shape_checkThirdPartySurfaceArea _) (fun i hc => by rw [hc]; rfl)]
  simp

theorem analyzePage_filter_headInfo (snap : Snapshot) :
    (analyzePage snap).filter
        (fun i => i.category = "Headings" ∧ i.severity = "info") =
      (checkHeadingHierarchy snap.elements.headings snap.url).filter
        (fun i => i.category = "Headings" ∧ i.severity = "info") := by
  unfold analyzePage
  simp only [List.filter_append]
  rw [filter_nil_of_cat (shape_checkButtonConsistency _ _) (fun i hc => by rw [hc]; rfl),
      filter_nil_of_cat (shape_checkInputConsistency _ _) (fun i hc => by rw [hc]; rfl),
      filter_nil_of_cat (shape_checkLinkConsistency _ _) (fun i hc => by rw [hc]; rfl),
      filter_nil_of_cat (shape_checkImageAccessibility _ _) (fun i hc => by rw [hc]; rfl),
      filter_nil_of_cat (shape_checkAboveFoldLazyImages _) (fun i hc => by rw [hc]; rfl),
      filter_nil_of_cat (shape_checkHeroImageHints _) (fun i hc => by rw [hc]; rfl),
      filter_nil_of_cat (shape_checkBackgroundImageHero _) (fun i hc => by rw [hc]; rfl),
      filter_nil_of_cat (shape_checkOverlayBlocking _) (fun i hc => by rw [hc]; rfl),
      filter_nil_of_cat (shape_checkSkeletonConsistency _) (fun i hc => by rw [hc]; rfl),
      filter_nil_of_cat (shape_checkTapTargets _) (fun i hc => by rw [hc]; rfl),
      filter_nil_of_cat (shape_checkRoleButtonAccessibility _ _) (fun i hc => by rw [hc]; rfl),
      filter_nil_of_cat (shape_checkThirdPartySurfaceArea _) (fun i hc => by rw [hc]; rfl)]
  simp

theorem analyzePage_filter_accErr (snap : Snapshot) :
    (analyzePage snap).filter
        (fun i => i.category = "Buttons: Accessibility" ∧ i.severity = "error") =
      (checkRoleButtonAccessibility snap.elements.buttons snap.url).filter
        (fun i => i.category = "Buttons: Accessibility" ∧ i.severity = "error") := by
  unfold analyzePage
  simp only [List.filter_append]
  rw [filter_nil_of_cat (shape_checkButtonConsistency _ _) (fun i hc => by rw [hc]; rfl),
      filter_nil_of_cat (shape_checkInputConsistency _ _) (fun i hc => by rw [hc]; rfl),
      filter_nil_of_cat (shape_checkHeadingHierarchy _ _) (fun i hc => by rw [hc]; rfl),
      filter_nil_of_cat (shape_checkLinkConsistency _ _) (fun i hc => by rw [hc]; rfl),
      filter_nil_of_cat (shape_checkImageAccessibility _ _) (fun i hc => by rw [hc]; rfl),
      filter_nil_of_cat (shape_checkAboveFoldLazyImages _) (fun i hc => by rw [hc]; rfl),
      filter_nil_of_cat (shape_checkHeroImageHints _) (fun i hc => by rw [hc]; rfl),
      filter_nil_of_cat (shape_checkBackgroundImageHero _) (fun i hc => by rw [hc]; rfl),
      filter_nil_of_cat (shape_checkOverlayBlocking _) (fun i hc => by rw [hc]; rfl),
      filter_nil_of_cat (shape_checkSkeletonConsistency _) (fun i hc => by rw [hc]; rfl),
      filter_nil_of_cat (shape_checkTapTargets _) (fun i hc => by rw [hc]; rfl),
      filter_nil_of_cat (shape_checkThirdPartySurfaceArea _) (fun i hc => by rw [hc]; rfl)]
  simp

theorem analyzePage_filter_tap (snap : Snapshot) :
    (analyzePage snap).filter (fun i => i.category = "UX: Tap Targets") =
      checkTapTargets snap := by
  unfold analyzePage
  simp only [List.filter_append]
  rw [filter_nil_of_cat (shape_checkButtonConsistency _ _) (fun i hc => by rw [hc]; rfl),
      filter_nil_of_cat (shape_checkInputConsistency _ _) (fun i hc => by rw [hc]; rfl),
      filter_nil_of_cat (shape_checkHeadingHierarchy _ _) (fun i hc => by rw [hc]; rfl),
      filter_nil_of_cat (shape_checkLinkConsistency _ _) (fun i hc => by rw [hc]; rfl),
      filter_nil_of_cat (shape_checkImageAccessibility _ _) (fun i hc => by rw [hc]; rfl),
      filter_nil_of_cat (shape_checkAboveFoldLazyImages _) (fun i hc => by rw [hc]; rfl),
      filter_nil_of_cat (shape_checkHeroImageHints _) (fun i hc => by rw [hc]; rfl),
      filter_nil_of_cat (shape_checkBackgroundImageHero _) (fun i hc => by rw [hc]; rfl),
      filter_nil_of_cat (shape_checkOverlayBlocking _) (fun i hc => by rw [hc]; rfl),
      filter_nil_of_cat (shape_checkSkeletonConsistency _) (fun i hc => by rw [hc]; rfl),
      filter_self_of_cat (shape_checkTapTargets _) (fun i hc => by rw [hc]; rfl),
      filter_nil_of_cat (shape_checkRoleButtonAccessibility _ _) (fun i hc => by rw [hc]; rfl),
      filter_nil_of_cat (shape_checkThirdPartySurfaceArea _) (fun i hc => by rw [hc]; rfl)]
  simp

theorem analyzePage_filter_thirdParty (snap : Snapshot) :
    (analyzePage snap).filter
        (fun i => i.category = "Performance: Third Parties") =
      checkThirdPartySurfaceArea snap := by
  unfold analyzePage
  simp only [List.filter_append]
  rw [filter_nil_of_cat (shape_checkButtonConsistency _ _) (fun i hc => by rw [hc]; rfl),
      filter_nil_of_cat (shape_checkInputConsistency _ _) (fun i hc => by rw [hc]; rfl),
      filter_nil_of_cat (shape_checkHeadingHierarchy _ _) (fun i hc => by rw [hc]; rfl),
      filter_nil_of_cat (shape_checkLinkConsistency _ _) (fun i hc => by rw [hc]; rfl),
      filter_nil_of_cat (shape_checkImageAccessibility _ _) (fun i hc => by rw [hc]; rfl),
      filter_nil_of_cat (shape_checkAboveFoldLazyImages _) (fun i hc => by rw [hc]; rfl),
      filter_nil_of_cat (shape_checkHeroImageHints _) (fun i hc => by rw [hc]; rfl),
      filter_nil_of_cat (shape_checkBackgroundImageHero _) (fun i hc => by rw [hc]; rfl),
      filter_nil_of_cat (shape_checkOverlayBlocking _) (fun i hc => by rw [hc]; rfl),
      filter_nil_of_cat (shape_checkSkeletonConsistency _) (fun i hc => by rw [hc]; rfl),
      filter_nil_of_cat (shape_checkTapTargets _) (fun i hc => by rw [hc]; rfl),
      filter_nil_of_cat (shape_checkRoleButtonAccessibility _ _) (fun i hc => by rw [hc]; rfl),
      filter_self_of_cat (shape_checkThirdPartySurfaceArea _) (fun i hc => by rw [hc]; rfl)]
  simp

theorem compareSnapshots_filter_urlHygiene (snapshots : List Snapshot)
    (h2 : 2 ≤ snapshots.length) :
    (compareSnapshots snapshots).filter
        (fun i => i.category = "Cross-Page: URL Hygiene") =
      crossPageUrlParamDuplication snapshots := by
  unfold compareSnapshots
  rw [if_neg (by omega)]
  simp only [List.filter_append]
  rw [filter_nil_of_cat (shape_crossPageButtonConsistency _) (fun i hc => by rw [hc]; rfl),
      filter_nil_of_cat (shape_crossPageInputConsistency _) (fun i hc => by rw [hc]; rfl),
      filter_nil_of_cat (shape_crossPageHeadingConsistency _) (fun i hc => by rw [hc]; rfl),
      filter_nil_of_cat (shape_crossPageFontConsistency _) (fun i hc => by rw [hc]; rfl),
      filter_nil_of_cat (shape_crossPageStaleRouteMetadata _) (fun i hc => by rw [hc]; rfl),
      filter_self_of_cat (shape_crossPageUrlParamDuplication _) (fun i hc => by rw [hc]; rfl),
      filter_nil_of_cat (shape_crossPageSameContentDifferentUrl _) (fun i hc => by rw [hc]; rfl),
      filter_nil_of_cat (shape_crossPageThirdPartyDrift _) (fun i hc => by rw [hc]; rfl),
      filter_nil_of_cat (shape_crossPageDomBloat _) (fun i hc => by rw [hc]; rfl),
      filter_nil_of_cat (shape_crossPageSkeletonConsistency _) (fun i hc => by rw [hc]; rfl),
      filter_nil_of_cat (shape_crossPageTapTargetDrift _) (fun i hc => by rw [hc]; rfl)]
  simp

theorem compareSnapshots_filter_spaInfo (snapshots : List Snapshot)
    (h2 : 2 ≤ snapshots.length) :
    (compareSnapshots snapshots).filter
        (fun i => i.category = "Cross-Page: SPA Navigation" ∧ i.severity = "info") =
      (crossPageStaleRouteMetadata snapshots).filter
        (fun i => i.category = "Cross-Page: SPA Navigation" ∧ i.severity = "info") := by
  unfold compareSnapshots
  rw [if_neg (by omega)]
  simp only [List.filter_append]
  rw [filter_nil_of_cat (shape_crossPageButtonConsistency _) (fun i hc => by rw [hc]; rfl),
      filter_nil_of_cat (shape_crossPageInputConsistency _) (fun i hc => by rw [hc]; rfl),
      filter_nil_of_cat (shape_crossPageHeadingConsistency _) (fun i hc => by rw [hc]; rfl),
      filter_nil_of_cat (shape_crossPageFontConsistency _) (fun i hc => by rw [hc]; rfl),
      filter_nil_of_cat (shape_crossPageUrlParamDuplication _) (fun i hc => by rw [hc]; rfl),
      filter_nil_of_cat (shape_crossPageSameContentDifferentUrl _) (fun i hc => by rw [hc]; rfl),
      filter_nil_of_cat (shape_crossPageThirdPartyDrift _) (fun i hc => by rw [hc]; rfl),
      filter_nil_of_cat (shape_crossPageDomBloat _) (fun i hc => by rw [hc]; rfl),
      filter_nil_of_cat (shape_crossPageSkeletonConsistency _) (fun i hc => by rw [hc]; rfl),
      filter_nil_of_cat (shape_crossPageTapTargetDrift _) (fun i hc => by rw [hc]; rfl)]
  simp

theorem compareSnapshots_filter_crossButtons (snapshots : List Snapshot)
    (h2 : 2 ≤ snapshots.length) :
    (compareSnapshots snapshots).filter
        (fun i => i.category = "Cross-Page: Buttons") =
      crossPageButtonConsistency snapshots := by
  unfold compareSnapshots
  rw [if_neg (by omega)]
  simp only [List.filter_append]
  rw [filter_self_of_cat (shape_crossPageButtonConsistency _) (fun i hc => by rw [hc]; rfl),
      filter_nil_of_cat (shape_crossPageInputConsistency _) (fun i hc => by rw [hc]; rfl),
      filter_nil_of_cat (shape_crossPageHeadingConsistency _) (fun i hc => by rw [hc]; rfl),
      filter_nil_of_cat (shape_crossPageFontConsistency _) (fun i hc => by rw [hc]; rfl),
      filter_nil_of_cat (shape_crossPageStaleRouteMetadata _) (fun i hc => by rw [hc]; rfl),
      filter_nil_of_cat (shape_crossPageUrlParamDuplication _) (fun i hc => by rw [hc]; rfl),
      filter_nil_of_cat (shape_crossPageSameContentDifferentUrl _) (fun i hc => by rw [hc]; rfl),
      filter_nil_of_cat (shape_crossPageThirdPartyDrift _) (fun i hc => by rw [hc]; rfl),
      filter_nil_of_cat (shape_crossPageDomBloat _) (fun i hc => by rw [hc]; rfl),
      filter_nil_of_cat (shape_crossPageSkeletonConsistency _) (fun i hc => by rw [hc]; rfl),
      filter_nil_of_cat (shape_crossPageTapTargetDrift _) (fun i hc => by rw [hc]; rfl)]
  simp

theorem compareSnapshots_filter_crossInputs (snapshots : List Snapshot)
    (h2 : 2 ≤ snapshots.length) :
    (compareSnapshots snapshots).filter
        (fun i => i.category = "Cross-Page: Inputs") =
      crossPageInputConsistency snapshots := by
  unfold compareSnapshots
  rw [if_neg (by omega)]
  simp only [List.filter_append]
  rw [filter_nil_of_cat (shape_crossPageButtonConsistency _) (fun i hc => by rw [hc]; rfl),
      filter_self_of_cat (shape_crossPageInputConsistency _) (fun i hc => by rw [hc]; rfl),
      filter_nil_of_cat (shape_crossPageHeadingConsistency _) (fun i hc => by rw [hc]; rfl),
      filter_nil_of_cat (shape_crossPageFontConsistency _) (fun i hc => by rw [hc]; rfl),
      filter_nil_of_cat (shape_crossPageStaleRouteMetadata _) (fun i hc => by rw [hc]; rfl),
      filter_nil_of_cat (shape_crossPageUrlParamDuplication _) (fun i hc => by rw [hc]; rfl),
      filter_nil_of_cat (shape_crossPageSameContentDifferentUrl _) (fun i hc => by rw [hc]; rfl),
      filter_nil_of_cat (shape_crossPageThirdPartyDrift _) (fun i hc => by rw [hc]; rfl),
      filter_nil_of_cat (shape_crossPageDomBloat _) (fun i hc => by rw [hc]; rfl),
      filter_nil_of_cat (shape_crossPageSkeletonConsistency _) (fun i hc => by rw [hc]; rfl),
      filter_nil_of_cat (shape_crossPageTapTargetDrift _) (fun i hc => by rw [hc]; rfl)]
  simp

theorem compareSnapshots_filter_crossFonts (snapshots : List Snapshot)
    (h2 : 2 ≤ snapshots.length) :
    (compareSnapshots snapshots).filter
        (fun i => i.category = "Cross-Page: Typography") =
      crossPageFontConsistency snapshots := by
  unfold compareSnapshots
  rw [if_neg (by omega)]
  simp only [List.filter_append]
  rw [filter_nil_of_cat (shape_crossPageButtonConsistency _) (fun i hc => by rw [hc]; rfl),
      filter_nil_of_cat (shape_crossPageInputConsistency _) (fun i hc => by rw [hc]; rfl),
      filter_nil_of_cat (shape_crossPageHeadingConsistency _) (fun i hc => by rw [hc]; rfl),
      filter_self_of_cat (shape_crossPageFontConsistency _) (fun i hc => by rw [hc]; rfl),
      filter_nil_of_cat (shape_crossPageStaleRouteMetadata _) (fun i hc => by rw [hc]; rfl),
      filter_nil_of_cat (shape_crossPageUrlParamDuplication _) (fun i hc => by rw [hc]; rfl),
      filter_nil_of_cat (shape_crossPageSameContentDifferentUrl _) (fun i hc => by rw [hc]; rfl),
      filter_nil_of_cat (shape_crossPageThirdPartyDrift _) (fun i hc => by rw [hc]; rfl),
      filter_nil_of_cat (shape_crossPageDomBloat _) (fun i hc => by rw [hc]; rfl),
      filter_nil_of_cat (shape_crossPageSkeletonConsistency _) (fun i hc => by rw [hc]; rfl),
      filter_nil_of_cat (shape_crossPageTapTargetDrift _) (fun i hc => by rw [hc]; rfl)]
  simp

theorem compareSnapshots_filter_crossSkeletons (snapshots : List Snapshot)
    (h2 : 2 ≤ snapshots.length) :
    (compareSnapshots snapshots).filter
        (fun i => i.category = "Cross-Page: Loading States") =
      crossPageSkeletonConsistency snapshots := by
  unfold compareSnapshots
  rw [if_neg (by omega)]
  simp only [List.filter_append]
  rw [filter_nil_of_cat (shape_crossPageButtonConsistency _) (fun i hc => by rw [hc]; rfl),
      filter_nil_of_cat (shape_crossPageInputConsistency _) (fun i hc => by rw [hc]; rfl),
      filter_nil_of_cat (shape_crossPageHeadingConsistency _) (fun i hc => by rw [hc]; rfl),
      filter_nil_of_cat (shape_crossPageFontConsistency _) (fun i hc => by rw [hc]; rfl),
      filter_nil_of_cat (shape_crossPageStaleRouteMetadata _) (fun i hc => by rw [hc]; rfl),
      filter_nil_of_cat (shape_crossPageUrlParamDuplication _) (fun i hc => by rw [hc]; rfl),
      filter_nil_of_cat (shape_crossPageSameContentDifferentUrl _) (fun i hc => by rw [hc]; rfl),
      filter_nil_of_cat (shape_crossPageThirdPartyDrift _) (fun i hc => by rw [hc]; rfl),
      filter_nil_of_cat (shape_crossPageDomBloat _) (fun i hc => by rw [hc]; rfl),
      filter_self_of_cat (shape_crossPageSkeletonConsistency _) (fun i hc => by rw [hc]; rfl),
      filter_nil_of_cat (shape_crossPageTapTargetDrift _) (fun i hc => by rw [hc]; rfl)]
  simp

theorem filter_ite_singleton_false {c : Prop} [Decidable c] {x : Issue}
    {q : Issue → Bool} (h : q x = false) :
    (if c then [x] else ([] : List Issue)).filter q = [] := by
  split <;> simp [List.filter, h]

theorem filter_ite_singleton_true {c : Prop} [Decidable c] {x : Issue}
    {q : Issue → Bool} (h : q x = true) :
    (if c then [x] else ([] : List Issue)).filter q =
      (if c then [x] else []) := by
  split <;> simp [List.filter, h]

theorem filter_flatMap_issues {α : Type} (l : List α) (f : α → List Issue)
    (q : Issue → Bool) :
    (l.flatMap f).filter q = l.flatMap (fun a => (f a).filter q) := by
  induction l with
  | nil => rfl
  | cons x xs ih => simp [List.filter_append, ih]

theorem length_filter_flatMap_ite {α : Type} (l : List α) (p : α → Prop)
    [DecidablePred p] (f : α → Issue) {q : Issue → Bool}
    (hq : ∀ a, q (f a) = true) :
    ((l.flatMap (fun e => if p e then [f e] else [])).filter q).length =
      l.countP (fun e => decide (p e)) := by
  induction l with
  | nil => rfl
  | cons x xs ih =>
    simp only [List.flatMap_cons, List.filter_append, List.length_append, ih,
      List.countP_cons]
    by_cases h : p x
    · simp [h, List.filter, hq]
      omega
    · simp [h]

/-- Appending a snapshot with a fresh url extends the `allStyles` map by
one entry. -/
theorem buttonStylesMap_step (snaps : List Snapshot) (extra : Snapshot) :
    buttonStylesMap (snaps ++ [extra]) =
      mapSet (buttonStylesMap snaps) extra.url
        (setList (extra.elements.buttons.map buttonSig)) := by
  unfold buttonStylesMap
  rw [List.foldl_append]
  rfl

/-- Every key of the `allStyles` map is the url of one of the snapshots. -/
theorem mapKeys_buttonStylesMap (snaps : List Snapshot) :
    ∀ a ∈ mapKeys (buttonStylesMap snaps), a ∈ snaps.map (fun s => s.url) := by
  induction snaps using List.reverseRecOn with
  | nil => intro a ha; simp [buttonStylesMap, mapKeys] at ha
  | append_singleton snaps extra ih =>
    intro a ha
    rw [buttonStylesMap_step, mapKeys_mapSet] at ha
    rw [mem_setAdd] at ha
    rw [List.map_append, List.mem_append]
    rcases ha with ha | rfl
    · exact Or.inl (ih a ha)
    · exact Or.inr (by simp)

/-! ## Concrete instances used by claim theorems -/

/-- A snapshot with zero elements in every category and no optional
enrichment fields. -/
def emptySnap : Snapshot := { url := "https://empty.example/" }

/-- A `"Go"` button of the given size. -/
def tapButton (w h : Nat) : ButtonEl :=
  { tag := "button", text := "Go", dimensions := { width := w, height := h } }

/-- One 44×44 button. -/
def tapSnap44 : Snapshot :=
  { url := "https://tap.example/", elements := { buttons := [tapButton 44 44] } }

/-- One 43×44 button. -/
def tapSnap43 : Snapshot :=
  { url := "https://tap.example/", elements := { buttons := [tapButton 43 44] } }

/-- The tap-target warning `tapSnap43` produces. -/
def tapIssue43 : Issue :=
  { severity := "warning", category := "UX: Tap Targets",
    message := "Small tap target: <button> \"Go\" is 43×44px",
    detail := "Interactive elements should be at least 44×44px for comfortable touch interaction.",
    url := some "https://tap.example/" }

/-- An empty-text native button. -/
def loneEmptyButton : ButtonEl := { tag := "button", text := "" }

/-- A snapshot whose buttons category is exactly one empty-text button. -/
def oneButtonSnap : Snapshot :=
  { url := "https://one.example/", elements := { buttons := [loneEmptyButton] } }

/-- An `"Ok"` button. -/
def okButton : ButtonEl := { tag := "button", text := "Ok" }

/-- Two buttons, one of them empty-text. -/
def twoButtonSnap : Snapshot :=
  { url := "https://two.example/",
    elements := { buttons := [loneEmptyButton, okButton] } }

/-! C8 -/

/-- C8: for every input, every Issue returned by `analyzePage` has severity
in the closed set error/warning/info and carries a url field (the page's
url), and every Issue returned by `compareSnapshots` has severity in that
set and carries no url field. -/
theorem claimC8 (snap : Snapshot) (snapshots : List Snapshot) :
    (analyzePage snap).all
        (fun i => decide ((i.severity = "error" ∨ i.severity = "warning" ∨
          i.severity = "info") ∧ i.url = some snap.url)) = true ∧
    (compareSnapshots snapshots).all
        (fun i => decide ((i.severity = "error" ∨ i.severity = "warning" ∨
          i.severity = "info") ∧ i.url = none)) = true := by
  constructor
  · rw [List.all_eq_true]
    intro i hi
    rw [decide_eq_true_eq]
    have h := shape_analyzePage snap i hi
    exact ⟨h.2, h.1⟩
  · rw [List.all_eq_true]
    intro i hi
    rw [decide_eq_true_eq]
    have h := shape_compareSnapshots snapshots i hi
    exact ⟨h.2, h.1⟩

/-! C3 -/

/-- C3 counterexample: on the all-empty snapshot, `analyzePage` does NOT
return the info-severity "no h1" issue (the claim says it does): the
headings detector returns early when the headings list is empty. -/
theorem claimC3_counterexample :
    emptySnap.elements.headings = [] ∧
    ¬ ∃ i ∈ analyzePage emptySnap, i.severity = "info" ∧
        i.message = "Page has no h1 heading" := by
  decide

/-- C3 (amended): `analyzePage` on a snapshot with zero elements in every
category and no optional enrichment fields returns the empty issue list
(in particular it raises no exception), and the info-severity "no h1"
issue is never emitted when the headings category is empty. -/
theorem claimC3 : analyzePage emptySnap = [] ∧
    ∀ snap : Snapshot, snap.elements.headings = [] →
      ¬ ∃ i ∈ analyzePage snap,
          i.category = "Headings" ∧ i.severity = "info" := by
  constructor
  · decide
  · intro snap h
    rintro ⟨i, hi, hcat, hsev⟩
    have hmem : i ∈ (analyzePage snap).filter
        (fun j => j.category = "Headings" ∧ j.severity = "info") :=
      List.mem_filter.mpr ⟨hi, by simp [hcat, hsev]⟩
    rw [analyzePage_filter_headInfo, h] at hmem
    simp [checkHeadingHierarchy] at hmem

/-- C3 witness: the amended theorem applied to the all-empty snapshot. -/
theorem claimC3_witness :
    ¬ ∃ i ∈ analyzePage emptySnap,
        i.category = "Headings" ∧ i.severity = "info" :=
  claimC3.2 emptySnap rfl

/-! C7 -/

/-- C7: `analyzePage` emits exactly one tap-target issue per button- or
link-category element with `0 < min(width, height) < 44` and none
otherwise; all tap-target issues are warnings; a 44×44 element yields no
tap-target issue and a 43×44 element yields exactly one. -/
theorem claimC7 (snap : Snapshot) :
    (((analyzePage snap).filter
        (fun i => i.category = "UX: Tap Targets")).length =
      (snap.elements.buttons.map (fun b => b.dimensions) ++
       snap.elements.links.map (fun l => l.dimensions)).countP
        (fun d => decide (min d.width d.height > 0 ∧
          min d.width d.height < 44))) ∧
    (∀ i ∈ analyzePage snap, i.category = "UX: Tap Targets" →
      i.severity = "warning") ∧
    (analyzePage tapSnap44).filter
        (fun i => i.category = "UX: Tap Targets") = [] ∧
    ((analyzePage tapSnap43).filter
        (fun i => i.category = "UX: Tap Targets")).length = 1 := by
  refine ⟨?_, ?_, by decide, by decide⟩
  · rw [analyzePage_filter_tap]
    simp only [checkTapTargets, tapTargetIssue]
    rw [length_flatMap_ite]
    rw [List.countP_append, List.countP_append, List.countP_map,
        List.countP_map, List.countP_map, List.countP_map]
    refine congrArg₂ (· + ·) ?_ ?_ <;>
      · apply List.countP_congr
        intro x hx
        simp [Function.comp]
  · have hw : allIssues (fun i => i.severity = "warning")
        (checkTapTargets snap) := by
      unfold checkTapTargets
      refine allIssues_flatMap fun t _ => ?_
      unfold tapTargetIssue
      exact allIssues_ite_singleton rfl
    intro i hi hcat
    refine hw i ?_
    rw [← analyzePage_filter_tap]
    exact List.mem_filter.mpr ⟨hi, by simp [hcat]⟩

/-- C7 witness: the theorem at the 43×44 snapshot, including the
per-element severity clause discharged at the concrete warning issue. -/
theorem claimC7_witness :
    tapIssue43.severity = "warning" ∧
    ((analyzePage tapSnap43).filter
        (fun i => i.category = "UX: Tap Targets")).length =
      (tapSnap43.elements.buttons.map (fun b => b.dimensions) ++
       tapSnap43.elements.links.map (fun l => l.dimensions)).countP
        (fun d => decide (min d.width d.height > 0 ∧
          min d.width d.height < 44)) :=
  ⟨(claimC7 tapSnap43).2.1 tapIssue43 (by decide) (by decide),
   (claimC7 tapSnap43).1⟩

/-! C2 -/

/-- C2 counterexample: a snapshot whose buttons category contains exactly
one empty-text `<button>` yields NO error from `analyzePage` (the claim
says it yields one): `_checkButtonConsistency` returns early when fewer
than two buttons exist. -/
theorem claimC2_counterexample :
    oneButtonSnap.elements.buttons = [loneEmptyButton] ∧
    loneEmptyButton.text = "" ∧ loneEmptyButton.tag = "button" ∧
    ((analyzePage oneButtonSnap).filter
        (fun i => i.category = "Buttons" ∧ i.severity = "error")).length = 0 := by
  decide

/-- C2 (amended): for snapshots whose buttons category has at least two
elements, `analyzePage` emits exactly one error-severity Buttons issue per
empty-text `<button>` element; with fewer than two buttons the detector
emits nothing. -/
theorem claimC2 (snap : Snapshot)
    (h2 : 2 ≤ snap.elements.buttons.length) :
    ((analyzePage snap).filter
        (fun i => i.category = "Buttons" ∧ i.severity = "error")).length =
      snap.elements.buttons.countP
        (fun b => decide (b.text = "" ∧ b.tag = "button")) := by
  rw [analyzePage_filter_btnErr]
  simp only [checkButtonConsistency]
  rw [if_neg (by omega)]
  simp only [List.filter_append, List.length_append]
  rw [filter_ite_singleton_false rfl, filter_ite_singleton_false rfl,
      filter_ite_singleton_false rfl]
  rw [length_filter_flatMap_ite _ _ _ (fun b => rfl)]
  simp

/-- C2 witness: the amended count at a two-button snapshot with one
empty-text button. -/
theorem claimC2_witness :
    2 ≤ twoButtonSnap.elements.buttons.length ∧
    ((analyzePage twoButtonSnap).filter
        (fun i => i.category = "Buttons" ∧ i.severity = "error")).length =
      twoButtonSnap.elements.buttons.countP
        (fun b => decide (b.text = "" ∧ b.tag = "button")) :=
  ⟨by decide, claimC2 twoButtonSnap (by decide)⟩

/-! C6 -/

/-- A `role="button"` div with no accessible name. -/
def namelessDiv : ButtonEl := { tag := "div", role := "button", tabIndex := some 0 }

/-- The same div with an aria-label. -/
def labelledDiv : ButtonEl :=
  { tag := "div", role := "button", ariaLabel := "close", tabIndex := some 0 }

/-- C6: the accessible-name errors of `analyzePage` are exactly the
per-element output of the role-button check, and for every element with
`role = "button"` that check emits exactly one accessible-name error when
text, ariaLabel and title are all empty, and none when any of them is
supplied. -/
theorem claimC6 (snap : Snapshot) (url : String) (btn : ButtonEl) :
    ((analyzePage snap).filter
        (fun i => i.category = "Buttons: Accessibility" ∧
          i.severity = "error") =
      snap.elements.buttons.flatMap
        (fun b => (roleButtonIssues snap.url b).filter
          (fun i => i.category = "Buttons: Accessibility" ∧
            i.severity = "error"))) ∧
    (btn.role = "button" →
      (((roleButtonIssues url btn).filter
          (fun i => i.category = "Buttons: Accessibility" ∧
            i.severity = "error")).length =
        if btn.text = "" ∧ btn.ariaLabel = "" ∧ btn.title = "" then 1
        else 0)) := by
  constructor
  · rw [analyzePage_filter_accErr]
    unfold checkRoleButtonAccessibility
    exact filter_flatMap_issues _ _ _
  · intro hrole
    simp only [roleButtonIssues]
    rw [if_pos (Or.inl hrole)]
    rw [List.filter_append, filter_ite_singleton_true rfl,
        filter_ite_singleton_false rfl, List.append_nil]
    have hiff : (¬ (btn.ariaLabel ≠ "" ∨ btn.title ≠ "" ∨ btn.text ≠ "")) ↔
        (btn.text = "" ∧ btn.ariaLabel = "" ∧ btn.title = "") := by
      constructor
      · intro h
        push_neg at h
        exact ⟨h.2.2, h.1, h.2.1⟩
      · rintro ⟨h1, h2, h3⟩
        push_neg
        exact ⟨h2, h3, h1⟩
    by_cases h : btn.text = "" ∧ btn.ariaLabel = "" ∧ btn.title = ""
    · rw [if_pos (hiff.mpr h), if_pos h]
      rfl
    · rw [if_neg (fun hc => h (hiff.mp hc)), if_neg h]
      rfl

/-- C6 witness: the theorem at a nameless `role="button"` div (one error)
and at the same div with an aria-label (no error). -/
theorem claimC6_witness :
    namelessDiv.role = "button" ∧
    ((roleButtonIssues "https://acc.example/" namelessDiv).filter
        (fun i => i.category = "Buttons: Accessibility" ∧
          i.severity = "error")).length = 1 ∧
    ((roleButtonIssues "https://acc.example/" labelledDiv).filter
        (fun i => i.category = "Buttons: Accessibility" ∧
          i.severity = "error")).length = 0 := by
  refine ⟨rfl, ?_, ?_⟩
  · have h := (claimC6 emptySnap "https://acc.example/" namelessDiv).2 rfl
    simpa [namelessDiv] using h
  · have h := (claimC6 emptySnap "https://acc.example/" labelledDiv).2 rfl
    simpa [labelledDiv] using h


/-! C9 -/

/-- A third-party host record. -/
def tpHost (n : Nat) : ThirdParty := { host := "h" ++ toString n ++ ".example" }

/-- Present-but-empty third-party list. -/
def emptyTpSnap : Snapshot :=
  { url := "https://few.example/", thirdPartyResources := some [] }

/-- Six third-party origins. -/
def sixTpSnap : Snapshot :=
  { url := "https://many.example/",
    thirdPartyResources :=
      some [tpHost 0, tpHost 1, tpHost 2, tpHost 3, tpHost 4, tpHost 5] }

/-- C9: a snapshot with a present-but-empty `thirdPartyResources` list is
not skipped by the cross-page third-party drift detector: it participates
with count 0 and is reported as the lowest-count page, so together with
one snapshot counting more than 5 origins the drift warning fires; the
single-page third-party detector proceeds on the empty list and emits
nothing. -/
theorem claimC9 (s1 s2 : Snapshot) (l : List ThirdParty)
    (h1 : s1.thirdPartyResources = some [])
    (h2 : s2.thirdPartyResources = some l)
    (h5 : 5 < l.length) :
    (∃ i ∈ compareSnapshots [s1, s2],
      i = { severity := "warning", category := "Cross-Page: Third Parties",
            message := "Third-party count varies widely: 0 to " ++
              toString l.length ++ " across pages",
            detail := "Fewest (0): " ++ strTake s1.url 60 ++ "; Most (" ++
              toString l.length ++ "): " ++ strTake s2.url 60 ++
              ". Large variance may cause inconsistent performance and user experience across routes." }) ∧
    (analyzePage s1).filter
        (fun i => i.category = "Performance: Third Parties") = [] := by
  have hdet : crossPageThirdPartyDrift [s1, s2] =
      [{ severity := "warning", category := "Cross-Page: Third Parties",
         message := "Third-party count varies widely: 0 to " ++
           toString l.length ++ " across pages",
         detail := "Fewest (0): " ++ strTake s1.url 60 ++ "; Most (" ++
           toString l.length ++ "): " ++ strTake s2.url 60 ++
           ". Large variance may cause inconsistent performance and user experience across routes." }] := by
    simp only [crossPageThirdPartyDrift, List.filter_cons, List.filter_nil,
      h1, h2, Option.isSome_some, if_true, List.map_cons, List.map_nil,
      Option.getD_some, List.length_cons, List.length_nil,
      natMinList, natMaxList, List.foldl_cons, List.foldl_nil]
    rw [if_neg (by omega)]
    simp only [Nat.zero_min, Nat.zero_max, Nat.sub_zero]
    rw [if_pos (by constructor <;> omega)]
    have hne : ((0 : Nat) == l.length) = false := by
      simp
      omega
    simp [List.find?, hne]
    constructor <;> rfl
  constructor
  · refine ⟨_, ?_, rfl⟩
    unfold compareSnapshots
    rw [if_neg (by simp)]
    simp only [List.mem_append]
    refine Or.inl (Or.inl (Or.inl (Or.inr ?_)))
    rw [hdet]
    exact List.mem_singleton_self _
  · rw [analyzePage_filter_thirdParty]
    simp [checkThirdPartySurfaceArea, h1]

/-- C9 witness: the theorem at an empty-list snapshot next to a six-origin
snapshot. -/
theorem claimC9_witness :
    (∃ i ∈ compareSnapshots [emptyTpSnap, sixTpSnap],
      i = { severity := "warning", category := "Cross-Page: Third Parties",
            message := "Third-party count varies widely: 0 to " ++
              toString ([tpHost 0, tpHost 1, tpHost 2, tpHost 3, tpHost 4,
                tpHost 5] : List ThirdParty).length ++ " across pages",
            detail := "Fewest (0): " ++ strTake emptyTpSnap.url 60 ++
              "; Most (" ++
              toString ([tpHost 0, tpHost 1, tpHost 2, tpHost 3, tpHost 4,
                tpHost 5] : List ThirdParty).length ++ "): " ++
              strTake sixTpSnap.url 60 ++
              ". Large variance may cause inconsistent performance and user experience across routes." }) ∧
    (analyzePage emptyTpSnap).filter
        (fun i => i.category = "Performance: Third Parties") = [] :=
  claimC9 emptyTpSnap sixTpSnap _ rfl rfl (by decide)

/-! C10 -/

/-- A snapshot carrying an unparseable URL string. -/
def rawSnapA : Snapshot := { url := "not a url" }

/-- A second snapshot with the same unparseable URL string. -/
def rawSnapB : Snapshot := { url := "not a url" }

/-- C10: when a snapshot's effective URL cannot be parsed, the
URL-parameter-duplication detector uses the raw string unchanged as the
grouping key, so two snapshots carrying the identical unparseable string
form one group and yield the duplicate-URL warning. -/
theorem claimC10 (u : String) (s1 s2 : Snapshot)
    (hp : parseUrl u = none)
    (h1 : effectiveUrl s1 = u) (h2 : effectiveUrl s2 = u) :
    stripTracking u = u ∧
    ∃ i ∈ compareSnapshots [s1, s2],
      i.category = "Cross-Page: URL Hygiene" ∧ i.severity = "warning" ∧
      i.message = "2 snapshots map to the same URL after stripping tracking params" := by
  have hstrip : stripTracking u = u := by
    unfold stripTracking
    rw [hp]
  have hdet : crossPageUrlParamDuplication [s1, s2] =
      [{ severity := "warning", category := "Cross-Page: URL Hygiene",
         message := "2 snapshots map to the same URL after stripping tracking params",
         detail := "Normalized URL: " ++ strTake u 100 ++
           ". Consider stripping tracking parameters client-side, using canonical URLs, or implementing No-Vary-Search on the server." }] := by
    simp only [crossPageUrlParamDuplication, groupByKey, List.map_cons,
      List.map_nil, h1, h2, List.foldl_cons, List.foldl_nil, hstrip]
    simp [mapPush]
    rfl
  refine ⟨hstrip,
    { severity := "warning", category := "Cross-Page: URL Hygiene",
      message := "2 snapshots map to the same URL after stripping tracking params",
      detail := "Normalized URL: " ++ strTake u 100 ++
        ". Consider stripping tracking parameters client-side, using canonical URLs, or implementing No-Vary-Search on the server." },
    ?_, rfl, rfl, rfl⟩
  unfold compareSnapshots
  rw [if_neg (by simp)]
  simp only [List.mem_append]
  refine Or.inl (Or.inl (Or.inl (Or.inl (Or.inl (Or.inr ?_)))))
  rw [hdet]
  exact List.mem_singleton_self _

/-- C10 witness: two snapshots whose url is the unparseable string
`"not a url"`. -/
theorem claimC10_witness :
    stripTracking "not a url" = "not a url" ∧
    ∃ i ∈ compareSnapshots [rawSnapA, rawSnapB],
      i.category = "Cross-Page: URL Hygiene" ∧ i.severity = "warning" ∧
      i.message = "2 snapshots map to the same URL after stripping tracking params" :=
  claimC10 "not a url" rawSnapA rawSnapB (by decide) rfl rfl

/-! C5 -/

theorem mem_ite_singleton_iff {c : Prop} [Decidable c] {x i : Issue} :
    i ∈ (if c then [x] else ([] : List Issue)) ↔ c ∧ i = x := by
  by_cases h : c
  · simp [h]
  · simp [h]

/-- The info issue of `_crossPageStaleRouteMetadata`. -/
def staleH1Issue (snaps : List Snapshot) : Issue :=
  { severity := "info", category := "Cross-Page: SPA Navigation",
    message := "All pages share the same h1: \"" ++
      strTake ((setList ((snaps.map (fun s => s.primaryH1Text)).filter
        (fun t => t ≠ ""))).headD "") 60 ++ "\"",
    detail := "The primary heading should reflect the current route content." }

/-- SPA route snapshot: distinct url/title per route, shared h1. -/
def spaSnapA : Snapshot :=
  { url := "https://spa.example/a", title := "A", primaryH1Text := "Hello",
    isSPA := true }

/-- Second route. -/
def spaSnapB : Snapshot :=
  { url := "https://spa.example/b", title := "B", primaryH1Text := "Hello" }

/-- Third route. -/
def spaSnapC : Snapshot :=
  { url := "https://spa.example/c", title := "C", primaryH1Text := "Hello" }

/-- Fourth route, with no h1 text at all. -/
def spaSnapD : Snapshot :=
  { url := "https://spa.example/d", title := "D", primaryH1Text := "" }

/-- C5 counterexample: the same-h1 info issue is emitted although no
single non-empty `primaryH1Text` is shared by ALL snapshots (one snapshot
has none): the code ignores empty values instead of requiring agreement
of every snapshot. -/
theorem claimC5_counterexample :
    (∃ s ∈ [spaSnapA, spaSnapB, spaSnapC, spaSnapD], s.isSPA = true) ∧
    (∃ i ∈ compareSnapshots [spaSnapA, spaSnapB, spaSnapC, spaSnapD],
      i.category = "Cross-Page: SPA Navigation" ∧ i.severity = "info") ∧
    ¬ (∃ t : String, t ≠ "" ∧
        ∀ s ∈ [spaSnapA, spaSnapB, spaSnapC, spaSnapD],
          s.primaryH1Text = t) := by
  refine ⟨by decide, by decide, ?_⟩
  rintro ⟨t, ht, hall⟩
  exact ht ((hall spaSnapD (by decide)).symm : t = "")

/-- C5 (amended): when at least one snapshot is an SPA, the same-h1 info
issue is emitted exactly when the snapshots have more than 2 distinct urls
and exactly one distinct non-empty `primaryH1Text` value among the
snapshots that have one (snapshots with empty h1 text are ignored). -/
theorem claimC5 (snaps : List Snapshot)
    (hspa : ∃ s ∈ snaps, s.isSPA = true) :
    (∃ i ∈ compareSnapshots snaps,
        i.category = "Cross-Page: SPA Navigation" ∧ i.severity = "info") ↔
      (2 < (snaps.map (fun s => s.url)).toFinset.card ∧
       ((snaps.map (fun s => s.primaryH1Text)).filter
          (fun t => t ≠ "")).toFinset.card = 1) := by
  have hany : snaps.any (fun s => s.isSPA) = true := by
    rw [List.any_eq_true]
    obtain ⟨s, hs, h⟩ := hspa
    exact ⟨s, hs, h⟩
  constructor
  · rintro ⟨i, hi, hcat, hsev⟩
    by_cases hlen : snaps.length < 2
    · unfold compareSnapshots at hi
      rw [if_pos hlen] at hi
      simp at hi
    · have h2 : 2 ≤ snaps.length := by omega
      have hmem : i ∈ (compareSnapshots snaps).filter
          (fun j => j.category = "Cross-Page: SPA Navigation" ∧
            j.severity = "info") :=
        List.mem_filter.mpr ⟨hi, by simp [hcat, hsev]⟩
      rw [compareSnapshots_filter_spaInfo _ h2] at hmem
      simp only [crossPageStaleRouteMetadata] at hmem
      rw [if_neg (fun hc => hc hany)] at hmem
      split at hmem
      · simp at hmem
      · rw [List.filter_append, filter_ite_singleton_false rfl,
            filter_ite_singleton_true rfl, List.nil_append,
            mem_ite_singleton_iff] at hmem
        obtain ⟨hcond, -⟩ := hmem
        refine ⟨?_, ?_⟩
        · have h := hcond.2
          rwa [length_setList] at h
        · have h := hcond.1
          rwa [length_setList] at h
  · rintro ⟨hurl, hh1⟩
    have hlen2 : 2 ≤ snaps.length := by
      have hle : (snaps.map (fun s => s.url)).toFinset.card ≤ snaps.length := by
        calc (snaps.map (fun s => s.url)).toFinset.card
            ≤ (snaps.map (fun s => s.url)).length := List.toFinset_card_le _
          _ = snaps.length := List.length_map _ _
      omega
    have hu2 : ¬ ((setList (snaps.map (fun s => s.url))).length < 2) := by
      rw [length_setList]
      omega
    have hcond : (setList ((snaps.map (fun s => s.primaryH1Text)).filter
          (fun t => t ≠ ""))).length = 1 ∧
        (setList (snaps.map (fun s => s.url))).length > 2 := by
      rw [length_setList, length_setList]
      exact ⟨hh1, hurl⟩
    refine ⟨staleH1Issue snaps, ?_, rfl, rfl⟩
    unfold compareSnapshots
    rw [if_neg (by omega)]
    simp only [List.mem_append]
    refine Or.inl (Or.inl (Or.inl (Or.inl (Or.inl (Or.inl (Or.inr ?_))))))
    simp only [crossPageStaleRouteMetadata]
    rw [if_neg (fun hc => hc hany), if_neg hu2]
    rw [List.mem_append]
    right
    rw [if_pos hcond]
    exact List.mem_singleton_self _

/-- C5 witness: three SPA routes with distinct urls sharing one non-empty
h1 produce the info issue. -/
theorem claimC5_witness :
    ∃ i ∈ compareSnapshots [spaSnapA, spaSnapB, spaSnapC],
      i.category = "Cross-Page: SPA Navigation" ∧ i.severity = "info" :=
  (claimC5 [spaSnapA, spaSnapB, spaSnapC]
    ⟨spaSnapA, by decide, rfl⟩).mpr (by decide)

/-! C1 -/

/-- Snapshot at the tracking-parameter URL. -/
def urlSnapA : Snapshot :=
  { url := "https://a.com/p?utm_source=x",
    fullUrl := "https://a.com/p?utm_source=x" }

/-- Snapshot at the clean URL. -/
def urlSnapB : Snapshot :=
  { url := "https://a.com/p", fullUrl := "https://a.com/p" }

/-- C1 counterexample: the tracking-parameter list has 12 entries, not 11,
and it does not cover every `utm_*` parameter: `utm_id` survives
normalization, so a URL differing only in `utm_id` does NOT normalize to
the same key. -/
theorem claimC1_counterexample :
    trackingParams.length ≠ 11 ∧
    stripTracking "https://a.com/p?utm_id=1" ≠
      stripTracking "https://a.com/p" := by
  decide

/-- C1 (amended): the detector normalizes each snapshot's `fullUrl` (or
`url`) by removing the fixed 12-item tracking-parameter set (the five
parameters `utm_source`, `utm_medium`, `utm_campaign`, `utm_term`,
`utm_content` together with `gclid`, `fbclid`, `msclkid`, `mc_cid`,
`mc_eid`, `ref` and `source`) and sorting the remaining query parameters;
`compareSnapshots` emits exactly one URL-hygiene warning per normalized
URL carried by more than one snapshot; in particular
`https://a.com/p?utm_source=x` and `https://a.com/p` normalize to the same
key and yield exactly one such warning. -/
theorem claimC1 (snaps : List Snapshot) (h2 : 2 ≤ snaps.length) :
    (((compareSnapshots snaps).filter
        (fun i => i.category = "Cross-Page: URL Hygiene")).length =
      ((setList ((snaps.map effectiveUrl).map stripTracking)).filter
        (fun k =>
          1 < ((snaps.map effectiveUrl).map stripTracking).count k)).length) ∧
    stripTracking "https://a.com/p?utm_source=x" =
      stripTracking "https://a.com/p" ∧
    ((compareSnapshots [urlSnapA, urlSnapB]).filter
        (fun i => i.category = "Cross-Page: URL Hygiene")).length = 1 := by
  refine ⟨?_, by decide, by decide⟩
  rw [compareSnapshots_filter_urlHygiene _ h2]
  simp only [crossPageUrlParamDuplication]
  rw [length_flatMap_ite]
  rw [groupByKey_eq_canon]
  simp only [groupCanon]
  rw [List.countP_map]
  rw [← List.countP_eq_length_filter]
  apply List.countP_congr
  intro k hk
  have hcount : ((snaps.map effectiveUrl).map stripTracking).count k =
      ((snaps.map effectiveUrl).filter
        (fun x => stripTracking x = k)).length := by
    rw [List.count_eq_countP, List.countP_map,
        ← List.countP_eq_length_filter]
    apply List.countP_congr
    intro x hx
    simp [Function.comp, beq_iff_eq]
  simp only [Function.comp_apply, decide_eq_true_eq]
  rw [hcount]

/-- C1 witness: the amended count at the concrete two-snapshot pair. -/
theorem claimC1_witness :
    2 ≤ ([urlSnapA, urlSnapB] : List Snapshot).length ∧
    ((compareSnapshots [urlSnapA, urlSnapB]).filter
        (fun i => i.category = "Cross-Page: URL Hygiene")).length =
      ((setList (([urlSnapA, urlSnapB].map effectiveUrl).map
          stripTracking)).filter
        (fun k => 1 < (([urlSnapA, urlSnapB].map effectiveUrl).map
          stripTracking).count k)).length :=
  ⟨by decide, (claimC1 [urlSnapA, urlSnapB] (by decide)).1⟩

/-! C4 -/

/-- The warning `_crossPageInputConsistency` emits. -/
def inputDriftIssue (snapshots : List Snapshot) : Issue :=
  { severity := "warning", category := "Cross-Page: Inputs",
    message := toString (setList
        (snapshots.flatMap (fun s => s.elements.inputs.map inputSig))).length ++
      " different input styles found across " ++
      toString snapshots.length ++ " pages",
    detail := "Form inputs should look the same across your application for a coherent user experience." }

/-- The info issue `_crossPageFontConsistency` emits. -/
def fontSprawlIssue (snapshots : List Snapshot) : Issue :=
  { severity := "info", category := "Cross-Page: Typography",
    message := toString (setList (snapshots.flatMap elementFontFamilies)).length ++
      " different font families used across pages",
    detail := "Font families found: " ++
      joinSep "; " ((setList (snapshots.flatMap elementFontFamilies)).map
        (fun f => strTake f 40)) ++
      ". Most designs use 1-2 font families." }

/-- The warning `_crossPageSkeletonConsistency` emits. -/
def skeletonDriftIssue (snapshots : List Snapshot) : Issue :=
  { severity := "warning", category := "Cross-Page: Loading States",
    message := toString (setList ((snapshots.filter
        (fun s => decide (0 < (s.skeletons.getD []).length))).flatMap
        (fun s => (s.skeletons.getD []).map skeletonSig))).length ++
      " different skeleton styles found across " ++
      toString (snapshots.filter
        (fun s => decide (0 < (s.skeletons.getD []).length))).length ++
      " pages",
    detail := "Loading placeholders should look consistent across all routes for a polished experience." }

/-- The warning `_crossPageButtonConsistency` emits. -/
def buttonDriftIssueOf (snapshots : List Snapshot) : Issue :=
  { severity := "warning", category := "Cross-Page: Buttons",
    message := toString (setList
        ((buttonStylesMap snapshots).flatMap (fun p => p.2))).length ++
      " different button styles found across " ++
      toString snapshots.length ++ " pages",
    detail := "Button styles should be consistent across pages. Consider using a shared component or CSS class." }

theorem inputsDrift_mono (snaps : List Snapshot) (extra : Snapshot)
    (i : Issue) (h2 : 2 ≤ snaps.length) (hi : i ∈ compareSnapshots snaps)
    (hcat : i.category = "Cross-Page: Inputs") :
    ∃ i' ∈ compareSnapshots (snaps ++ [extra]),
      i'.category = i.category ∧ i'.severity = i.severity := by
  have hmem : i ∈ crossPageInputConsistency snaps := by
    rw [← compareSnapshots_filter_crossInputs snaps h2]
    exact List.mem_filter.mpr ⟨hi, by simp [hcat]⟩
  simp only [crossPageInputConsistency] at hmem
  rw [mem_ite_singleton_iff] at hmem
  obtain ⟨hgt, hieq⟩ := hmem
  subst hieq
  have hmono : (setList (snaps.flatMap
      (fun s => s.elements.inputs.map inputSig))).length ≤
      (setList ((snaps ++ [extra]).flatMap
        (fun s => s.elements.inputs.map inputSig))).length := by
    apply length_setList_mono
    intro a ha
    rw [List.flatMap_append, List.mem_append]
    exact Or.inl ha
  refine ⟨inputDriftIssue (snaps ++ [extra]), ?_, rfl, rfl⟩
  unfold compareSnapshots
  rw [if_neg (by simp; omega)]
  simp only [List.mem_append]
  refine Or.inl (Or.inl (Or.inl (Or.inl (Or.inl (Or.inl (Or.inl (Or.inl
    (Or.inl (Or.inr ?_)))))))))
  simp only [crossPageInputConsistency]
  rw [if_pos (by omega)]
  exact List.mem_singleton_self _

theorem fontsDrift_mono (snaps : List Snapshot) (extra : Snapshot)
    (i : Issue) (h2 : 2 ≤ snaps.length) (hi : i ∈ compareSnapshots snaps)
    (hcat : i.category = "Cross-Page: Typography") :
    ∃ i' ∈ compareSnapshots (snaps ++ [extra]),
      i'.category = i.category ∧ i'.severity = i.severity := by
  have hmem : i ∈ crossPageFontConsistency snaps := by
    rw [← compareSnapshots_filter_crossFonts snaps h2]
    exact List.mem_filter.mpr ⟨hi, by simp [hcat]⟩
  simp only [crossPageFontConsistency] at hmem
  rw [mem_ite_singleton_iff] at hmem
  obtain ⟨hgt, hieq⟩ := hmem
  subst hieq
  have hmono : (setList (snaps.flatMap elementFontFamilies)).length ≤
      (setList ((snaps ++ [extra]).flatMap elementFontFamilies)).length := by
    apply length_setList_mono
    intro a ha
    rw [List.flatMap_append, List.mem_append]
    exact Or.inl ha
  refine ⟨fontSprawlIssue (snaps ++ [extra]), ?_, rfl, rfl⟩
  unfold compareSnapshots
  rw [if_neg (by simp; omega)]
  simp only [List.mem_append]
  refine Or.inl (Or.inl (Or.inl (Or.inl (Or.inl (Or.inl (Or.inl
    (Or.inr ?_)))))))
  simp only [crossPageFontConsistency]
  rw [if_pos (by omega)]
  exact List.mem_singleton_self _

theorem skeletonDrift_mono (snaps : List Snapshot) (extra : Snapshot)
    (i : Issue) (h2 : 2 ≤ snaps.length) (hi : i ∈ compareSnapshots snaps)
    (hcat : i.category = "Cross-Page: Loading States") :
    ∃ i' ∈ compareSnapshots (snaps ++ [extra]),
      i'.category = i.category ∧ i'.severity = i.severity := by
  have hmem : i ∈ crossPageSkeletonConsistency snaps := by
    rw [← compareSnapshots_filter_crossSkeletons snaps h2]
    exact List.mem_filter.mpr ⟨hi, by simp [hcat]⟩
  by_cases hws : (snaps.filter
      (fun s => decide (0 < (s.skeletons.getD []).length))).length < 2
  · simp only [crossPageSkeletonConsistency] at hmem
    rw [if_pos hws] at hmem
    simp at hmem
  · simp only [crossPageSkeletonConsistency] at hmem
    rw [if_neg hws] at hmem
    rw [mem_ite_singleton_iff] at hmem
    obtain ⟨hgt, hieq⟩ := hmem
    subst hieq
    have hwext : (snaps ++ [extra]).filter
        (fun s => decide (0 < (s.skeletons.getD []).length)) =
        snaps.filter (fun s => decide (0 < (s.skeletons.getD []).length)) ++
        [extra].filter (fun s => decide (0 < (s.skeletons.getD []).length)) :=
      List.filter_append _ _
    have hmono : (setList ((snaps.filter
        (fun s => decide (0 < (s.skeletons.getD []).length))).flatMap
        (fun s => (s.skeletons.getD []).map skeletonSig))).length ≤
        (setList (((snaps ++ [extra]).filter
          (fun s => decide (0 < (s.skeletons.getD []).length))).flatMap
          (fun s => (s.skeletons.getD []).map skeletonSig))).length := by
      apply length_setList_mono
      intro a ha
      rw [hwext, List.flatMap_append, List.mem_append]
      exact Or.inl ha
    have hwlen : ¬ ((snaps ++ [extra]).filter
        (fun s => decide (0 < (s.skeletons.getD []).length))).length < 2 := by
      rw [hwext, List.length_append]
      omega
    refine ⟨skeletonDriftIssue (snaps ++ [extra]), ?_, rfl, rfl⟩
    unfold compareSnapshots
    rw [if_neg (by simp; omega)]
    simp only [List.mem_append]
    refine Or.inl (Or.inr ?_)
    simp only [crossPageSkeletonConsistency]
    rw [if_neg hwlen, if_pos (by omega)]
    exact List.mem_singleton_self _

theorem buttonDrift_mono_freshUrl (snaps : List Snapshot) (extra : Snapshot)
    (i : Issue) (h2 : 2 ≤ snaps.length) (hi : i ∈ compareSnapshots snaps)
    (hcat : i.category = "Cross-Page: Buttons")
    (hfresh : extra.url ∉ snaps.map (fun s => s.url)) :
    ∃ i' ∈ compareSnapshots (snaps ++ [extra]),
      i'.category = i.category ∧ i'.severity = i.severity := by
  have hmem : i ∈ crossPageButtonConsistency snaps := by
    rw [← compareSnapshots_filter_crossButtons snaps h2]
    exact List.mem_filter.mpr ⟨hi, by simp [hcat]⟩
  simp only [crossPageButtonConsistency] at hmem
  rw [mem_ite_singleton_iff] at hmem
  obtain ⟨hgt, hieq⟩ := hmem
  subst hieq
  have hkey : extra.url ∉ mapKeys (buttonStylesMap snaps) :=
    fun hk => hfresh (mapKeys_buttonStylesMap snaps _ hk)
  have hbext : buttonStylesMap (snaps ++ [extra]) =
      buttonStylesMap snaps ++
      [(extra.url, setList (extra.elements.buttons.map buttonSig))] := by
    rw [buttonStylesMap_step, mapSet_fresh _ _ _ hkey]
  have hmono : (setList ((buttonStylesMap snaps).flatMap
      (fun p => p.2))).length ≤
      (setList ((buttonStylesMap (snaps ++ [extra])).flatMap
        (fun p => p.2))).length := by
    apply length_setList_mono
    intro a ha
    rw [hbext, List.flatMap_append, List.mem_append]
    exact Or.inl ha
  refine ⟨buttonDriftIssueOf (snaps ++ [extra]), ?_, rfl, rfl⟩
  unfold compareSnapshots
  rw [if_neg (by simp; omega)]
  simp only [List.mem_append]
  refine Or.inl (Or.inl (Or.inl (Or.inl (Or.inl (Or.inl (Or.inl (Or.inl
    (Or.inl (Or.inl ?_)))))))))
  simp only [crossPageButtonConsistency]
  rw [if_pos (by omega)]
  exact List.mem_singleton_self _

/-- A button with only a distinguishing font size. -/
def styledButton (fs : String) : ButtonEl :=
  { tag := "button", text := "b", styles := { fontSize := fs } }

/-- Four distinct button styles on one page. -/
def driftSnapA : Snapshot :=
  { url := "https://u1.example/",
    elements := { buttons := [styledButton "10px", styledButton "11px",
      styledButton "12px", styledButton "13px"] } }

/-- A second page with no buttons. -/
def driftSnapB : Snapshot := { url := "https://u2.example/" }

/-- A third page with no buttons and a fresh url. -/
def driftSnapC : Snapshot := { url := "https://u3.example/" }

/-- A third page with no buttons that REUSES `driftSnapA`'s url. -/
def driftSnapOv : Snapshot := { url := "https://u1.example/" }

/-- The cross-page button warning produced for the two-snapshot list. -/
def smallButtonDriftIssue : Issue :=
  { severity := "warning", category := "Cross-Page: Buttons",
    message := "4 different button styles found across 2 pages",
    detail := "Button styles should be consistent across pages. Consider using a shared component or CSS class." }

/-- C4 counterexample: the cross-page button drift warning produced for a
two-snapshot list is NOT literally present after appending a third
snapshot (its message embeds the page count), and when the appended
snapshot reuses an existing url the detector's `url -> signatures` map
entry is overwritten, so no Cross-Page: Buttons issue survives at all. -/
theorem claimC4_counterexample :
    (smallButtonDriftIssue ∈ compareSnapshots [driftSnapA, driftSnapB] ∧
     smallButtonDriftIssue.category = "Cross-Page: Buttons") ∧
    smallButtonDriftIssue ∉
      compareSnapshots [driftSnapA, driftSnapB, driftSnapC] ∧
    (∀ i ∈ compareSnapshots [driftSnapA, driftSnapB, driftSnapOv],
      i.category ≠ "Cross-Page: Buttons") := by
  decide

/-- C4 (amended): appending one snapshot never stops the set-union-based
drift detectors from firing — an issue with the same category and severity
remains in `compareSnapshots` of the extended list (the exact Issue value
may differ, since messages embed counts) — for the input-style,
font-family and skeleton-signature detectors unconditionally, and for the
button-style detector provided the appended snapshot's url differs from
every existing snapshot's url (a reused url overwrites that url's entry
in the signature map). -/
theorem claimC4 (snaps : List Snapshot) (extra : Snapshot) (i : Issue)
    (h2 : 2 ≤ snaps.length) (hi : i ∈ compareSnapshots snaps) :
    (i.category = "Cross-Page: Inputs" →
      ∃ i' ∈ compareSnapshots (snaps ++ [extra]),
        i'.category = i.category ∧ i'.severity = i.severity) ∧
    (i.category = "Cross-Page: Typography" →
      ∃ i' ∈ compareSnapshots (snaps ++ [extra]),
        i'.category = i.category ∧ i'.severity = i.severity) ∧
    (i.category = "Cross-Page: Loading States" →
      ∃ i' ∈ compareSnapshots (snaps ++ [extra]),
        i'.category = i.category ∧ i'.severity = i.severity) ∧
    (i.category = "Cross-Page: Buttons" →
      extra.url ∉ snaps.map (fun s => s.url) →
      ∃ i' ∈ compareSnapshots (snaps ++ [extra]),
        i'.category = i.category ∧ i'.severity = i.severity) :=
  ⟨fun hcat => inputsDrift_mono snaps extra i h2 hi hcat,
   fun hcat => fontsDrift_mono snaps extra i h2 hi hcat,
   fun hcat => skeletonDrift_mono snaps extra i h2 hi hcat,
   fun hcat hfresh =>
     buttonDrift_mono_freshUrl snaps extra i h2 hi hcat hfresh⟩

/-- C4 witness: the button branch of the amended theorem at the concrete
drift snapshots and a fresh-url third snapshot. -/
theorem claimC4_witness :
    ∃ i' ∈ compareSnapshots ([driftSnapA, driftSnapB] ++ [driftSnapC]),
      i'.category = smallButtonDriftIssue.category ∧
      i'.severity = smallButtonDriftIssue.severity :=
  (claimC4 [driftSnapA, driftSnapB] driftSnapC smallButtonDriftIssue
    (by decide) (by decide)).2.2.2 (by decide) (by decide)
